import Mathlib

set_option maxRecDepth 8192

/-!
Shallow embedding of the Veritas dropout-detection core
(`src/dropout/{models,event_collector,feature_extractor,llm_analyzer,
scoring,dropout_classifier,main}.py`) and proofs about it.

Modelling conventions:
* Python floats are modelled as `ℚ` (all arithmetic in the pipeline is
  exact decimal arithmetic on small constants).
* Timestamps are modelled as `ℚ` seconds.
* Python exceptions are modelled with `Except`.
* Dictionaries keyed by `(student, question)` are modelled per key:
  each analysis works on the event list of one key, exactly as
  `get_events_for_student_question` projects it.
-/

namespace Dropout

/-- `models.EventType`. -/
inductive EventType where
  | question_start
  | question_submit
  | answer_revision
  | navigation
  | focus_blur
  | focus_focus
  | session_start
  | session_end
  | hint_request
  deriving DecidableEq, Repr

/-- `models.ChangeType`. -/
inductive ChangeType where
  | SUPERFICIAL
  | STRUCTURAL
  | CORRECTIVE
  deriving DecidableEq, Repr

/-- `models.LearningState`. -/
inductive LearningState where
  | PROGRESSING
  | PLATEAU
  | STALLED
  deriving DecidableEq, Repr

/-- `models.DropoutType`. -/
inductive DropoutType where
  | COGNITIVE
  | BEHAVIORAL
  | ENGAGEMENT
  | SILENT
  | NO_DROPOUT
  deriving DecidableEq, Repr

/-- Reasoning-continuity literal `"HIGH" | "MEDIUM" | "LOW"`. -/
inductive Continuity where
  | HIGH
  | MEDIUM
  | LOW
  deriving DecidableEq, Repr

/-- Momentum direction literal `"ACCELERATING" | "STABLE" | "DECELERATING"`. -/
inductive MomentumDirection where
  | ACCELERATING
  | STABLE
  | DECELERATING
  deriving DecidableEq, Repr

/-- One entry of `models.AttemptHistory.attempts`
(answer, timestamp, correctness; the 1-based attempt number is the
position in the list). -/
structure Attempt where
  answer : String
  timestamp : ℚ
  is_correct : Bool
  deriving DecidableEq, Repr

/-- The payload fields of a `models.LearningEvent` that the pipeline
reads (`data.get("answer")`, `data.get("is_correct")`,
`data.get("time_spent_seconds")`), plus type and timestamp.  Events of
other types carry the defaults the `dict.get` calls would produce. -/
structure Ev where
  etype : EventType
  answer : String := ""
  is_correct : Bool := false
  time_spent_seconds : ℚ := 0
  timestamp : ℚ
  deriving DecidableEq, Repr

/-- `models.LearningProgressSignals`. -/
structure LearningProgressSignals where
  attempt_count : ℕ
  attempt_frequency : ℚ
  time_spent_per_attempt : List ℚ
  improvement_score : ℚ
  change_type : List ChangeType := []
  semantic_change_score : ℚ := 0
  no_progress_flag : Bool := false
  learning_state : LearningState := .PROGRESSING
  deriving DecidableEq, Repr

/-- `models.StagnationSignals`. -/
structure StagnationSignals where
  stagnation_duration_minutes : ℚ
  repeat_attempt_count : ℕ
  concept_revisit_frequency : ℚ
  is_stalled : Bool := false
  stagnation_severity : ℚ := 0
  deriving DecidableEq, Repr

/-- `models.IntegritySignals`. -/
structure IntegritySignals where
  integrity_score : ℚ
  reasoning_continuity : Continuity
  sudden_jump_flag : Bool
  external_assistance_likelihood : ℚ
  deriving DecidableEq, Repr

/-- `models.AIReasoningSignals`. -/
structure AIReasoningSignals where
  conceptual_gap_description : String
  learning_summary : String
  llm_confidence_estimate : ℚ
  misconception_patterns : List String := []
  confidence_vs_correctness_gap : ℚ := 0
  deriving DecidableEq, Repr

/-- `models.CompetitionAwareSignals`. -/
structure CompetitionAwareSignals where
  latest_mock_rank : Option ℤ := none
  previous_mock_rank : Option ℤ := none
  rank_delta : Option ℤ := none
  relative_progress_index : ℚ := 0
  competition_pressure_flag : Bool := false
  deriving DecidableEq, Repr

/-- `models.BehavioralDisengagementSignals`. -/
structure BehavioralDisengagementSignals where
  attempt_gap_time : List ℚ := []
  daily_attempt_count : List ℕ := []
  consistency_score : ℚ := 0
  average_gap_increasing : Bool := false
  deriving DecidableEq, Repr

/-- `models.InterventionResponseSignals` (shape only; the extractor
always returns the neutral record). -/
structure InterventionResponseSignals where
  intervention_triggered : Bool := false
  post_intervention_progress : ℚ := 0
  recovery_score : ℚ := 0
  intervention_success_flag : Bool := false
  deriving DecidableEq, Repr

/-- `models.ComprehensiveFeatureSet` (the as-of timestamp is omitted:
nothing downstream reads it). -/
structure ComprehensiveFeatureSet where
  learning_progress : LearningProgressSignals
  stagnation : StagnationSignals
  integrity : IntegritySignals
  ai_reasoning : AIReasoningSignals
  competition_aware : CompetitionAwareSignals
  behavioral_disengagement : BehavioralDisengagementSignals
  intervention_response : InterventionResponseSignals := {}
  deriving DecidableEq, Repr

/-- `models.LearningMomentumIndex` (timestamp omitted, unread). -/
structure LearningMomentumIndex where
  lmi_score : ℚ
  momentum_direction : MomentumDirection
  decay_rate : ℚ
  deriving DecidableEq, Repr

/-- `models.DropoutRiskScore` (timestamp omitted, unread). -/
structure DropoutRiskScore where
  drs_score : ℚ
  confidence : ℚ
  risk_level : String
  primary_risk_factors : List String
  deriving DecidableEq, Repr

/-- `models.DropoutClassification` (timestamp omitted, unread). -/
structure DropoutClassification where
  is_dropout : Bool
  dropout_types : List DropoutType
  primary_reason : String
  lmi_score : ℚ
  drs_score : ℚ
  confidence : ℚ
  recommendation : String
  primary_risk_factors : List String
  deriving DecidableEq, Repr

/-! ## Scoring engine (`scoring.py`) -/

/-- `statistics.mean` on a rational list (call sites in the source only
invoke it on non-empty lists; on `[]` Lean division by zero yields `0`). -/
def pymean (l : List ℚ) : ℚ := l.sum / l.length

/-- `statistics.variance` (sample variance, `n - 1` denominator; call
sites guard `len > 1`). -/
def pyvariance (l : List ℚ) : ℚ :=
  (l.map (fun x => (x - pymean l) ^ 2)).sum / ((l.length : ℚ) - 1)

/-- `ScoringEngine._calculate_decay_rate`. -/
def calculate_decay_rate (attempt_count : ℕ) : ℚ :=
  (5 : ℚ)/100 + max 0 (((attempt_count : ℚ) - 2) * (8/100))

/-- The stagnation penalty computed inside `ScoringEngine.calculate_lmi`. -/
def stagnation_penalty (s : StagnationSignals) : ℚ :=
  if s.is_stalled then 40
  else if s.stagnation_duration_minutes > 30 then 25
  else if s.stagnation_duration_minutes > 15 then 15
  else 0

/-- The learning-state multiplier dictionary inside
`ScoringEngine.calculate_lmi`. -/
def learning_state_multiplier : LearningState → ℚ
  | .PROGRESSING => 6/5
  | .PLATEAU => 1
  | .STALLED => 1/2

/-- The clamped `lmi_score` computed by `ScoringEngine.calculate_lmi`:
`(base_improvement * learning_state_multiplier + semantic_bonus)
 * integrity_multiplier * llm_confidence - stagnation_penalty`,
clamped to `[0, 100]`. -/
def calculate_lmi_score (f : ComprehensiveFeatureSet) : ℚ :=
  let base_improvement := f.learning_progress.improvement_score
  let semantic_bonus := f.learning_progress.semantic_change_score / 100 * 15
  let multiplier := learning_state_multiplier f.learning_progress.learning_state
  let integrity_multiplier := f.integrity.integrity_score / 100
  let llm_confidence := f.ai_reasoning.llm_confidence_estimate
  max 0 (min 100
    ((base_improvement * multiplier + semantic_bonus)
      * integrity_multiplier * llm_confidence
      - stagnation_penalty f.stagnation))

/-- Helper reading `l[-2]` and `l[-1]` as Python negative indexing does
(total; call sites guard `length ≥ 2`). -/
def last_two (l : List ℚ) : ℚ × ℚ :=
  match l.reverse with
  | a :: b :: _ => (b, a)
  | _ => (0, 0)

/-- The momentum direction computed by `ScoringEngine.calculate_lmi`
from the optional `historical_lmi` list (`none` and `some []` are both
Python-falsy and give `STABLE`). -/
def momentum_direction_of (historical : Option (List ℚ)) : MomentumDirection :=
  match historical with
  | none => .STABLE
  | some l =>
      if l.length ≥ 2 then
        let recent_trend := (last_two l).2 - (last_two l).1
        if recent_trend > 5 then .ACCELERATING
        else if recent_trend < -5 then .DECELERATING
        else .STABLE
      else .STABLE

/-- `ScoringEngine.calculate_lmi`, as a pure function of the features,
the `historical_lmi` argument and the attempt count (the mutable
`lmi_history` append is handled by the callers that thread the engine
state). -/
def calculate_lmi (f : ComprehensiveFeatureSet) (historical : Option (List ℚ)) :
    LearningMomentumIndex :=
  { lmi_score := calculate_lmi_score f
    momentum_direction := momentum_direction_of historical
    decay_rate := calculate_decay_rate f.learning_progress.attempt_count }

/-- `ScoringEngine._score_lmi_component`; `lmi_history` is the list of
previously computed LMI scores held by the engine. -/
def score_lmi_component (lmi_history : List ℚ) (f : ComprehensiveFeatureSet) : ℚ :=
  let lmi_score :=
    match lmi_history.getLast? with
    | some l => l
    | none => f.learning_progress.improvement_score
  max 0 (min 1 (1 - lmi_score / 100))

/-- `ScoringEngine._score_stagnation_component`. -/
def score_stagnation_component (f : ComprehensiveFeatureSet) : ℚ :=
  let s := f.stagnation
  if s.is_stalled then 95/100
  else
    let duration_score := min 1 (s.stagnation_duration_minutes / 60)
    let repeat_score := min 1 ((s.repeat_attempt_count : ℚ) / 5)
    (duration_score + repeat_score) / 2

/-- `ScoringEngine._score_behavioral_component`. -/
def score_behavioral_component (f : ComprehensiveFeatureSet) : ℚ :=
  let d := f.behavioral_disengagement
  let risk := (1 - d.consistency_score / 100) * (4/10)
  let risk := risk + (if d.average_gap_increasing then 3/10 else 0)
  let risk := risk +
    (match d.daily_attempt_count with
      | [] => 0
      | n :: _ => if n < 3 then 3/10 else 0)
  min 1 risk

/-- `ScoringEngine._score_integrity_component`. -/
def score_integrity_component (f : ComprehensiveFeatureSet) : ℚ :=
  let i := f.integrity
  let risk := (if i.sudden_jump_flag then 4/10 else 0)
  let risk := risk + i.external_assistance_likelihood * (3/10)
  let risk := risk +
    (match i.reasoning_continuity with
      | .HIGH => 0
      | .MEDIUM => 2/10
      | .LOW => 4/10)
  min 1 risk

/-- `ScoringEngine._score_competition_component` (`rank_delta and
rank_delta > 0` is Python-truthy exactly for a present positive delta). -/
def score_competition_component (f : ComprehensiveFeatureSet) : ℚ :=
  let c := f.competition_aware
  let risk := (if c.competition_pressure_flag then 5/10 else 0)
  let risk := risk +
    (match c.rank_delta with
      | some d => if d > 0 then min (4/10) ((d : ℚ) / 100) else 0
      | none => 0)
  let risk := risk + (1 - c.relative_progress_index / 100) * (3/10)
  min 1 risk

/-- `ScoringEngine._score_engagement_component`. -/
def score_engagement_component (f : ComprehensiveFeatureSet) : ℚ :=
  let p := f.learning_progress
  let risk := (if p.no_progress_flag then 6/10 else 0)
  let risk := risk + (if p.attempt_frequency < 1/10 then 3/10 else 0)
  min 1 risk

/-- `ScoringEngine._calculate_drs_confidence`. -/
def calculate_drs_confidence (f : ComprehensiveFeatureSet) : ℚ :=
  let confidence := (1:ℚ)/2 +
    min (3/10) ((f.learning_progress.attempt_count : ℚ) * (5/100))
  let confidence := confidence + f.ai_reasoning.llm_confidence_estimate * (1/10)
  let progress_ok := f.learning_progress.improvement_score > 50
  let stagnation_bad := f.stagnation.is_stalled
  let confidence :=
    if progress_ok ∧ stagnation_bad then confidence - 15/100 else confidence
  max (3/10) (min 1 confidence)

/-- The weighted `drs_score` aggregation in `ScoringEngine.calculate_drs`. -/
def calculate_drs_score (lmi_history : List ℚ) (f : ComprehensiveFeatureSet) : ℚ :=
  score_lmi_component lmi_history f * (35/100) +
  score_stagnation_component f * (25/100) +
  score_behavioral_component f * (15/100) +
  score_integrity_component f * (10/100) +
  score_competition_component f * (10/100) +
  score_engagement_component f * (5/100)

/-- The risk-level thresholds in `ScoringEngine.calculate_drs`
(`DRS_HIGH = 0.8`, `DRS_MEDIUM = 0.6`, `DRS_LOW = 0.3`). -/
def drs_risk_level (drs_score : ℚ) : String :=
  if drs_score ≥ 8/10 then "CRITICAL"
  else if drs_score ≥ 6/10 then "HIGH"
  else if drs_score ≥ 3/10 then "MEDIUM"
  else "LOW"

/-- Stable descending insertion used to model Python's stable
`list.sort(key=score, reverse=True)` in `_identify_risk_factors`. -/
def insert_desc (x : String × ℚ) : List (String × ℚ) → List (String × ℚ)
  | [] => [x]
  | y :: ys => if y.2 > x.2 then y :: insert_desc x ys else x :: y :: ys

/-- `ScoringEngine._identify_risk_factors`: keep the components
exceeding `0.6`, sort by score descending (stably), take the top 3. -/
def identify_risk_factors (s_lmi s_stag s_beh s_int s_comp s_eng : ℚ) :
    List String :=
  let factors : List (String × ℚ) :=
    (if s_lmi > 6/10 then [("Declining learning momentum", s_lmi)] else []) ++
    (if s_stag > 6/10 then [("Stagnation on problem", s_stag)] else []) ++
    (if s_beh > 6/10 then [("Reduced effort/consistency", s_beh)] else []) ++
    (if s_int > 6/10 then [("Authenticity concerns", s_int)] else []) ++
    (if s_comp > 6/10 then [("Competition pressure", s_comp)] else []) ++
    (if s_eng > 6/10 then [("Engagement declining", s_eng)] else [])
  ((factors.foldr insert_desc []).take 3).map Prod.fst

/-- `ScoringEngine.calculate_drs` as a pure function of the engine's
`lmi_history` and the features. -/
def calculate_drs (lmi_history : List ℚ) (f : ComprehensiveFeatureSet) :
    DropoutRiskScore :=
  let drs_score := calculate_drs_score lmi_history f
  { drs_score := drs_score
    confidence := calculate_drs_confidence f
    risk_level := drs_risk_level drs_score
    primary_risk_factors :=
      identify_risk_factors
        (score_lmi_component lmi_history f)
        (score_stagnation_component f)
        (score_behavioral_component f)
        (score_integrity_component f)
        (score_competition_component f)
        (score_engagement_component f) }

/-! ## Number rendering for f-string interpolations

Python renders `f"{x:.0f}"` / `f"{x:.1f}"` with round-half-to-even.
The rendered text only ever contains digits, `-` and `.`, which is the
fact the view-isolation proofs rely on. -/

/-- Round half to even, as Python string formatting does. -/
def round_half_even (q : ℚ) : ℤ :=
  let f := ⌊q⌋
  let r := q - f
  if r < 1/2 then f
  else if 1/2 < r then f + 1
  else if f % 2 = 0 then f else f + 1

/-- Digit character for a value `0..9` (callers pass reduced digits). -/
def digit_char : ℕ → Char
  | 0 => '0' | 1 => '1' | 2 => '2' | 3 => '3' | 4 => '4'
  | 5 => '5' | 6 => '6' | 7 => '7' | 8 => '8' | _ => '9'

/-- Base-10 digit expansion with explicit fuel (`n + 1` is always
enough fuel), kept structurally recursive so that it evaluates inside
the kernel. -/
def nat_digits_rev_go : ℕ → ℕ → List ℕ
  | 0, _ => []
  | fuel + 1, n => if n < 10 then [n] else n % 10 :: nat_digits_rev_go fuel (n / 10)

/-- Base-10 digits of a natural number, least significant first. -/
def nat_digits_rev (n : ℕ) : List ℕ :=
  nat_digits_rev_go (n + 1) n

/-- Decimal characters of a natural number. -/
def nat_chars (n : ℕ) : List Char :=
  (nat_digits_rev n).reverse.map digit_char

/-- Decimal characters of an integer. -/
def int_chars (n : ℤ) : List Char :=
  if n < 0 then '-' :: nat_chars n.natAbs else nat_chars n.toNat

/-- Python `f"{q:.0f}"`. -/
def pyformat_f0 (q : ℚ) : String :=
  String.mk (int_chars (round_half_even q))

/-- Python `f"{q:.1f}"`. -/
def pyformat_f1 (q : ℚ) : String :=
  let n := round_half_even (q * 10)
  let sign : List Char := if n < 0 then ['-'] else []
  let m := n.natAbs
  String.mk (sign ++ nat_chars (m / 10) ++ '.' :: [digit_char (m % 10)])

/-! ## Classifier (`dropout_classifier.py`) -/

/-- Python `max()` over a list (call sites guard non-emptiness). -/
def pymax (l : List ℚ) : ℚ :=
  match l with
  | [] => 0
  | x :: xs => xs.foldl max x

/-- `DropoutClassifier._is_cognitive_dropout`. -/
def is_cognitive_dropout (f : ComprehensiveFeatureSet)
    (lmi : LearningMomentumIndex) : Bool :=
  decide (lmi.lmi_score < 40 ∧ f.learning_progress.semantic_change_score < 30)
  || decide (f.ai_reasoning.misconception_patterns.length ≥ 2 ∧
        f.learning_progress.improvement_score < 40)
  || decide (f.learning_progress.attempt_count ≥ 3 ∧
        f.learning_progress.semantic_change_score < 20 ∧
        f.learning_progress.improvement_score < 35)
  || (f.stagnation.is_stalled &&
        decide (f.ai_reasoning.llm_confidence_estimate < 4/10))

/-- `DropoutClassifier._is_behavioral_dropout`. -/
def is_behavioral_dropout (f : ComprehensiveFeatureSet) : Bool :=
  let b := f.behavioral_disengagement
  (decide (b.consistency_score < 40) && b.average_gap_increasing)
  || decide (f.integrity.external_assistance_likelihood > 7/10 ∧
        b.consistency_score < 50)
  || (match b.attempt_gap_time with
      | [] => false
      | l => decide (pymax l > 600))

/-- `DropoutClassifier._is_engagement_dropout`. -/
def is_engagement_dropout (f : ComprehensiveFeatureSet) : Bool :=
  let p := f.learning_progress
  let b := f.behavioral_disengagement
  decide (p.attempt_frequency < 2/10 ∧ b.consistency_score < 50)
  || (f.competition_aware.competition_pressure_flag &&
        decide (p.improvement_score < 40))
  || (p.no_progress_flag && decide (b.consistency_score < 60))
  || (b.average_gap_increasing && decide (p.attempt_count ≥ 3))

/-- `DropoutClassifier._is_silent_dropout`. -/
def is_silent_dropout (f : ComprehensiveFeatureSet)
    (lmi : LearningMomentumIndex) (drs : DropoutRiskScore) : Bool :=
  let p := f.learning_progress
  let b := f.behavioral_disengagement
  let is_momentum_decelerating :=
    lmi.momentum_direction = .DECELERATING ∧ lmi.lmi_score < 50
  let behavior_appears_ok :=
    b.consistency_score > 50 ∧ b.average_gap_increasing = false
  let learning_stalling :=
    p.semantic_change_score < 25 ∨ p.no_progress_flag = true
  decide (is_momentum_decelerating ∧ behavior_appears_ok ∧ learning_stalling)
  || decide (lmi.lmi_score < 35 ∧ drs.drs_score > 7/10 ∧
        f.behavioral_disengagement.attempt_gap_time.length = 0)

/-- `DropoutClassifier._determine_dropout_types`. -/
def determine_dropout_types (f : ComprehensiveFeatureSet)
    (lmi : LearningMomentumIndex) (drs : DropoutRiskScore) :
    List DropoutType :=
  (if is_cognitive_dropout f lmi then [.COGNITIVE] else []) ++
  (if is_behavioral_dropout f then [.BEHAVIORAL] else []) ++
  (if is_engagement_dropout f then [.ENGAGEMENT] else []) ++
  (if is_silent_dropout f lmi drs then [.SILENT] else [])

/-- The Python runtime errors the analysis path can raise. -/
inductive PyErr where
  /-- `AttributeError`: `lmi.momentum_direction.value` in
  `_generate_primary_reason`, where `momentum_direction` is a plain
  string. -/
  | attributeError
  deriving DecidableEq, Repr

/-- One reason string of `DropoutClassifier._generate_primary_reason`
(the `SILENT` branch evaluates `lmi.momentum_direction.value` on a
plain string and raises `AttributeError`). -/
def reason_for (f : ComprehensiveFeatureSet) (t : DropoutType) :
    Except PyErr String :=
  match t with
  | .COGNITIVE =>
      .ok ("Cognitive: " ++
        (if f.ai_reasoning.conceptual_gap_description = "" then
          "Conceptual understanding declining"
        else f.ai_reasoning.conceptual_gap_description))
  | .BEHAVIORAL =>
      .ok ("Behavioral: Inconsistent engagement pattern detected (consistency: "
        ++ pyformat_f0 f.behavioral_disengagement.consistency_score ++ "%)")
  | .ENGAGEMENT =>
      .ok (if f.competition_aware.competition_pressure_flag then
          "Engagement: Declining motivation due to competition pressure"
        else "Engagement: Effort and focus declining over time")
  | .SILENT => .error .attributeError
  | .NO_DROPOUT => .ok ""

/-- `DropoutClassifier._generate_primary_reason`. -/
def generate_primary_reason (dropout_types : List DropoutType)
    (f : ComprehensiveFeatureSet) : Except PyErr String :=
  if dropout_types.isEmpty then
    .ok "Student showing healthy learning progression"
  else do
    let reasons ← dropout_types.mapM (reason_for f)
    .ok (String.intercalate " | " reasons)

/-- `ThresholdManager.get_intervention_type`. -/
def get_intervention_type (drs : DropoutRiskScore) : String :=
  let factors := drs.primary_risk_factors
  if "Declining learning momentum" ∈ factors then "CONCEPTUAL_SUPPORT"
  else if "Stagnation on problem" ∈ factors then "STRATEGIC_GUIDANCE"
  else if "Competition pressure" ∈ factors ∨ "Engagement declining" ∈ factors then
    "MOTIVATIONAL_SUPPORT"
  else if "Authenticity concerns" ∈ factors then "INTEGRITY_CHECK"
  else "GENERAL_SUPPORT"

/-- `ThresholdManager.get_urgency_level`. -/
def get_urgency_level (drs : DropoutRiskScore) : String :=
  if drs.risk_level = "CRITICAL" then "URGENT"
  else if drs.risk_level = "HIGH" then "HIGH"
  else if drs.risk_level = "MEDIUM" then "MEDIUM"
  else "LOW"

/-- The recommendation-template dictionary in
`DropoutClassifier._generate_recommendation`. -/
def recommendation_text (intervention_type : String) : String :=
  if intervention_type = "CONCEPTUAL_SUPPORT" then
    "Provide step-by-step concept review and worked examples. Identify and address root misconceptions."
  else if intervention_type = "STRATEGIC_GUIDANCE" then
    "Teach problem-solving strategies. Break down complex problems. Provide hints before full solutions."
  else if intervention_type = "MOTIVATIONAL_SUPPORT" then
    "Acknowledge effort. Set achievable milestones. Connect learning to personal goals."
  else if intervention_type = "INTEGRITY_CHECK" then
    "Review learning authenticity. Provide supportive feedback. Adjust problem difficulty if needed."
  else "General learning support and encouragement."

/-- The urgency-prefix dictionary in
`DropoutClassifier._generate_recommendation` (`.get` default `""`). -/
def urgency_prefix (urgency : String) : String :=
  if urgency = "URGENT" then "⚠️ URGENT: "
  else if urgency = "HIGH" then "🔴 HIGH PRIORITY: "
  else if urgency = "MEDIUM" then "🟡 MEDIUM: "
  else if urgency = "LOW" then "🟢 LOW: "
  else ""

/-- `DropoutClassifier._generate_recommendation`. -/
def generate_recommendation (dropout_types : List DropoutType)
    (drs : DropoutRiskScore) : String :=
  if dropout_types.isEmpty then
    "Continue monitoring. No immediate intervention needed."
  else
    urgency_prefix (get_urgency_level drs) ++
      recommendation_text (get_intervention_type drs)

/-- `DropoutClassifier._calculate_classification_confidence`. -/
def calculate_classification_confidence (is_dropout : Bool)
    (dropout_types : List DropoutType) (drs : DropoutRiskScore)
    (lmi : LearningMomentumIndex) : ℚ :=
  let confidence := drs.confidence
  let confidence :=
    if dropout_types.length > 1 then min 1 (confidence + 1/10) else confidence
  let confidence :=
    if is_dropout then
      if lmi.lmi_score < 40 ∧ drs.drs_score > 6/10 then
        min 1 (confidence + 15/100)
      else confidence
    else
      if lmi.lmi_score > 70 ∧ drs.drs_score < 3/10 then
        min 1 (confidence + 15/100)
      else confidence
  let confidence :=
    if is_dropout ∧ drs.drs_score < 1/2 then
      max (1/2) (confidence - 1/10)
    else confidence
  max (3/10) (min 1 confidence)

/-- The engine state mutated by `DropoutClassifier.classify`
(`ScoringEngine.lmi_history` / `drs_history`, scores only — only
`lmi_history`'s last entry is ever read back). -/
structure ScoringEngineState where
  lmi_history : List ℚ := []
  drs_history : List ℚ := []
  deriving DecidableEq, Repr

/-- `DropoutClassifier.classify`: computes LMI (appending to the engine
history), DRS (reading the just-appended LMI), types, reason,
recommendation and confidence.  The engine state is returned even on
error, because both history appends happen before
`_generate_primary_reason` can raise. -/
def classify (st : ScoringEngineState) (f : ComprehensiveFeatureSet)
    (historical : Option (List ℚ)) :
    Except PyErr DropoutClassification × ScoringEngineState :=
  let lmi := calculate_lmi f historical
  let st := { st with lmi_history := st.lmi_history ++ [lmi.lmi_score] }
  let drs := calculate_drs st.lmi_history f
  let st := { st with drs_history := st.drs_history ++ [drs.drs_score] }
  let dropout_types := determine_dropout_types f lmi drs
  let is_dropout := !dropout_types.isEmpty
  match generate_primary_reason dropout_types f with
  | .error e => (.error e, st)
  | .ok primary_reason =>
      (.ok
        { is_dropout := is_dropout
          dropout_types := dropout_types
          primary_reason := primary_reason
          lmi_score := lmi.lmi_score
          drs_score := drs.drs_score
          confidence :=
            calculate_classification_confidence is_dropout dropout_types drs lmi
          recommendation := generate_recommendation dropout_types drs
          primary_risk_factors := drs.primary_risk_factors }, st)

/-! ## Feature extraction (`feature_extractor.py`)

Each extractor is a pure function of the per-key event list, exactly as
the Python methods are pure functions of
`get_events_for_student_question(student_id, question_id)`. -/

/-- The submit events of a per-key event list. -/
def submit_events (events : List Ev) : List Ev :=
  events.filter (fun e => decide (e.etype = .question_submit))

/-- `EventCollector.build_attempt_history`. -/
def build_attempt_history (events : List Ev) : List Attempt :=
  (submit_events events).map
    (fun e => { answer := e.answer, timestamp := e.timestamp,
                is_correct := e.is_correct })

/-- Correctness progression `[float(a["is_correct"]) for a in attempts]`. -/
def correctness_progression (history : List Attempt) : List ℚ :=
  history.map (fun a => if a.is_correct then 1 else 0)

/-- `FeatureExtractor._is_superficial_change` (whitespace removal and
lower-casing; ASCII lower-casing models `str.lower`). -/
def is_superficial_change (text1 text2 : String) : Bool :=
  let cleaned := fun (s : String) =>
    (s.toList.filter (fun c => !c.isWhitespace)).map Char.toLower
  cleaned text1 = cleaned text2

/-- `FeatureExtractor._classify_change_types`. -/
def classify_change_types (history : List Attempt) : List ChangeType :=
  if history.length ≤ 1 then []
  else
    (history.zip history.tail).map (fun p =>
      if is_superficial_change p.1.answer p.2.answer then .SUPERFICIAL
      else if p.1.answer ≠ p.2.answer ∧ p.2.is_correct = true then .CORRECTIVE
      else .STRUCTURAL)

/-- `FeatureExtractor._calculate_semantic_change_score`. -/
def calculate_semantic_change_score (change_types : List ChangeType) : ℚ :=
  match change_types with
  | [] => 0
  | _ =>
      let semantic_changes :=
        (change_types.filter (fun ct =>
          decide (ct = .CORRECTIVE ∨ ct = .STRUCTURAL))).length
      (semantic_changes : ℚ) / change_types.length * 100

/-- `FeatureExtractor._determine_learning_state` (the `change_types`
argument of the source is unused there). -/
def determine_learning_state (improvement_score : ℚ) (attempt_count : ℕ) :
    LearningState :=
  if improvement_score > 60 ∧ attempt_count ≤ 3 then .PROGRESSING
  else if attempt_count > 5 ∧ improvement_score < 30 then .STALLED
  else .PLATEAU

/-- First timestamp of a list of events (`events[0].timestamp`; call
sites guard non-emptiness). -/
def first_timestamp (events : List Ev) : ℚ :=
  match events with
  | [] => 0
  | e :: _ => e.timestamp

/-- Last timestamp of a list of events (`events[-1].timestamp`). -/
def last_timestamp (events : List Ev) : ℚ :=
  match events.getLast? with
  | some e => e.timestamp
  | none => 0

/-- `FeatureExtractor.extract_learning_progress_signals`. -/
def extract_learning_progress_signals (events : List Ev) :
    LearningProgressSignals :=
  let history := build_attempt_history events
  let attempt_count := history.length
  if attempt_count = 0 then
    { attempt_count := 0
      attempt_frequency := 0
      time_spent_per_attempt := []
      improvement_score := 0 }
  else
    let submits := submit_events events
    let time_spent_list := submits.map (·.time_spent_seconds)
    let attempt_frequency :=
      if submits.length ≥ 2 then
        let time_diff := (last_timestamp submits - first_timestamp submits) / 60
        (attempt_count : ℚ) / max time_diff 1
      else 0
    let correctness := correctness_progression history
    let improvement_score :=
      if correctness.length > 1 then
        let early_avg := pymean (correctness.take (correctness.length / 2))
        let late_avg := pymean (correctness.drop (correctness.length / 2))
        max 0 (late_avg - early_avg) * 100
      else
        match correctness with
        | c :: _ => if c ≠ 0 then 100 else 0
        | [] => 0
    let change_types := classify_change_types history
    let semantic_score := calculate_semantic_change_score change_types
    { attempt_count := attempt_count
      attempt_frequency := attempt_frequency
      time_spent_per_attempt := time_spent_list
      improvement_score := min 100 (max 0 improvement_score)
      change_type := change_types
      semantic_change_score := min 100 (max 0 semantic_score)
      no_progress_flag := decide (semantic_score < 30 ∧ attempt_count ≥ 3)
      learning_state := determine_learning_state improvement_score attempt_count }

/-- `FeatureExtractor.extract_stagnation_signals`. -/
def extract_stagnation_signals (events : List Ev) : StagnationSignals :=
  let history := build_attempt_history events
  if events.isEmpty then
    { stagnation_duration_minutes := 0
      repeat_attempt_count := 0
      concept_revisit_frequency := 0 }
  else
    let submits := submit_events events
    let stagnation_duration :=
      if submits.length > 1 then
        (last_timestamp submits - first_timestamp submits) / 60
      else 0
    let repeat_attempt_count := history.length
    let correctness := correctness_progression history
    let improvement :=
      ((correctness.filter (fun c => decide (c > 0))).length : ℚ) /
        max 1 (correctness.length : ℚ)
    { stagnation_duration_minutes := stagnation_duration
      repeat_attempt_count := repeat_attempt_count
      concept_revisit_frequency := ((repeat_attempt_count - 1 : ℕ) : ℚ)
      is_stalled :=
        decide (repeat_attempt_count ≥ 3 ∧ stagnation_duration ≥ 15 ∧
          improvement < 1/2)
      stagnation_severity :=
        min 100 ((repeat_attempt_count : ℚ) * 20 + stagnation_duration / 5) }

/-- The sudden-jump scan of `extract_integrity_signals`: some
consecutive correctness pair increases by more than `0.5`. -/
def sudden_jump_of (history : List Attempt) : Bool :=
  let correctness := correctness_progression history
  (correctness.zip correctness.tail).any (fun p => decide (p.2 > p.1 + 1/2))

/-- The reasoning-continuity / assistance-likelihood branch of
`extract_integrity_signals` (answer-length variance against the mean). -/
def continuity_likelihood (history : List Attempt) (sudden_jump : Bool) :
    Continuity × ℚ :=
  let answer_lengths := history.map (fun a => (a.answer.length : ℚ))
  if answer_lengths.length > 1 then
    let length_variance := pyvariance answer_lengths
    let avg_length := pymean answer_lengths
    if length_variance > avg_length * 2 ∧ sudden_jump = true then
      (.LOW, 6/10)
    else if length_variance > avg_length then (.MEDIUM, 3/10)
    else (.HIGH, 1/10)
  else (.HIGH, 1/10)

/-- `FeatureExtractor.extract_integrity_signals`. -/
def extract_integrity_signals (events : List Ev) : IntegritySignals :=
  let history := build_attempt_history events
  if history.isEmpty then
    { integrity_score := 100
      reasoning_continuity := .HIGH
      sudden_jump_flag := false
      external_assistance_likelihood := 0 }
  else
    let sudden_jump := sudden_jump_of history
    let cl := continuity_likelihood history sudden_jump
    let base_score := (100 : ℚ) - (if sudden_jump then 20 else 0) -
      (if cl.2 > 1/2 then 15 else 0)
    { integrity_score := max 0 base_score
      reasoning_continuity := cl.1
      sudden_jump_flag := sudden_jump
      external_assistance_likelihood := cl.2 }

/-- `FeatureExtractor.extract_competition_aware_signals` (`rank and
rank` Python-truthiness: a rank of `0` counts as absent). -/
def extract_competition_aware_signals (events : List Ev)
    (latest_mock_rank previous_mock_rank : Option ℤ) :
    CompetitionAwareSignals :=
  let rank_delta :=
    match latest_mock_rank, previous_mock_rank with
    | some l, some p => if l ≠ 0 ∧ p ≠ 0 then some (l - p) else none
    | _, _ => none
  let history := build_attempt_history events
  let correctness := correctness_progression history
  let relative_progress :=
    match correctness with
    | [] => 0
    | _ => correctness.sum / correctness.length * 100
  let pressure_flag :=
    (match rank_delta with
      | some d => decide (d > 0)
      | none => false) || decide (relative_progress < 30)
  { latest_mock_rank := latest_mock_rank
    previous_mock_rank := previous_mock_rank
    rank_delta := rank_delta
    relative_progress_index := relative_progress
    competition_pressure_flag := pressure_flag }

/-- `FeatureExtractor.extract_behavioral_disengagement_signals`. -/
def extract_behavioral_disengagement_signals (events : List Ev) :
    BehavioralDisengagementSignals :=
  let submits := submit_events events
  let attempt_gaps :=
    (submits.zip submits.tail).map (fun p => p.2.timestamp - p.1.timestamp)
  let daily_attempts := [submits.length]
  let consistency :=
    match attempt_gaps with
    | [] => (100 : ℚ)
    | _ => max 0 (100 - pymean attempt_gaps / 60)
  let avg_gap_increasing :=
    if attempt_gaps.length > 1 then
      let first_half := pymean (attempt_gaps.take (attempt_gaps.length / 2))
      let second_half := pymean (attempt_gaps.drop (attempt_gaps.length / 2))
      decide (second_half > first_half * (12/10))
    else false
  { attempt_gap_time := attempt_gaps
    daily_attempt_count := daily_attempts
    consistency_score := min 100 (max 0 consistency)
    average_gap_increasing := avg_gap_increasing }

/-! ## Reasoning analyzer (`llm_analyzer.py`, mock path) -/

/-- Decimal string of a natural number (for int f-string interpolation). -/
def pyformat_nat (n : ℕ) : String := String.mk (nat_chars n)

/-- `LLMAnalyzer._mock_analysis`. -/
def mock_analysis (history : List Attempt) : AIReasoningSignals :=
  let attempt_count := history.length
  let correct_attempts := (history.filter (fun a => a.is_correct)).length
  let dg : ℕ × String :=
    if attempt_count = 1 then
      if correct_attempts = 1 then
        (85, "No gaps detected - solved on first attempt")
      else (40, "Initial misconception or insufficient understanding")
    else if attempt_count = 2 then
      if correct_attempts ≥ 1 then
        (70, "Quick recovery suggests understanding refinement")
      else (35, "Persistent conceptual confusion")
    else
      if correct_attempts ≥ 1 then
        (55, "Difficulty with problem-solving approach, not concept")
      else (20, "Fundamental misunderstanding - requires intervention")
  let answer_lengths := history.map (fun a => a.answer.length)
  let consistency : String :=
    if answer_lengths.length > 1 then
      let variance := answer_lengths.foldl max 0 -
        answer_lengths.foldl min (answer_lengths.headD 0)
      if variance > 50 then "LOW"
      else if variance > 20 then "MEDIUM"
      else "HIGH"
    else "HIGH"
  let misconceptions :=
    if attempt_count ≥ 2 ∧ correct_attempts = 0 then
      ["Repeated error pattern detected"]
    else []
  let confidence_gap : ℚ := if correct_attempts > 0 then -10 else 30
  let learning_summary :=
    "Student made " ++ pyformat_nat attempt_count ++ " attempt(s), succeeded on "
      ++ pyformat_nat correct_attempts ++ ". Learning state: " ++ consistency
      ++ " consistency, reasoning depth " ++ pyformat_nat dg.1 ++ "/100. "
      ++ (if !misconceptions.isEmpty then
            "Concerns: " ++ String.intercalate ", " misconceptions
          else "")
  { conceptual_gap_description := dg.2
    learning_summary := learning_summary
    llm_confidence_estimate := min (95/100) (1/2 + (attempt_count : ℚ) * (15/100))
    misconception_patterns := misconceptions
    confidence_vs_correctness_gap := confidence_gap }

/-- `LLMAnalyzer.analyze_attempt_progression` with no client configured
(the mock path — the deterministic fallback). -/
def analyze_attempt_progression (history : List Attempt) : AIReasoningSignals :=
  if history.isEmpty then
    { conceptual_gap_description := "No attempts recorded"
      learning_summary := "Student has not attempted this question"
      llm_confidence_estimate := 0 }
  else mock_analysis history

/-! ## Pipeline assembly (`dropout_classifier.DropoutDetectionPipeline`,
`main.DropoutDetectionSystem`) -/

/-- `FeatureExtractor.extract_comprehensive_features` followed by the
pipeline's overwrite of `features.ai_reasoning` with the analyzer output
(`analyze_student_question`, layer 2 + 3). -/
def extract_features_with_ai (events : List Ev)
    (latest_mock_rank previous_mock_rank : Option ℤ) :
    ComprehensiveFeatureSet :=
  { learning_progress := extract_learning_progress_signals events
    stagnation := extract_stagnation_signals events
    integrity := extract_integrity_signals events
    ai_reasoning := analyze_attempt_progression (build_attempt_history events)
    competition_aware :=
      extract_competition_aware_signals events latest_mock_rank previous_mock_rank
    behavioral_disengagement := extract_behavioral_disengagement_signals events }

/-- The per-key mutable state of `DropoutDetectionSystem`: the shared
scoring engine plus `student_history[key]["analyses"]` projected to its
`lmi_score` entries (`none` when the key was never analyzed, which is
what `_get_historical_lmi` distinguishes). -/
structure SystemState where
  engine : ScoringEngineState := {}
  key_analyses : Option (List ℚ) := none
  deriving DecidableEq, Repr

/-- One call of `DropoutDetectionSystem.analyze` for a fixed per-key
event list (mock analyzer): fetch historical LMI, run the pipeline,
store the new analysis on success; an exception escaping
`_generate_primary_reason` leaves `student_history` untouched but the
engine histories already appended. -/
def system_analyze (events : List Ev) (s : SystemState) :
    Except PyErr DropoutClassification × SystemState :=
  let features := extract_features_with_ai events none none
  let historical := s.key_analyses
  let r := classify s.engine features historical
  match r.1 with
  | .ok c =>
      (.ok c,
        { engine := r.2
          key_analyses := some ((s.key_analyses.getD []) ++ [c.lmi_score]) })
  | .error e => (.error e, { engine := r.2, key_analyses := s.key_analyses })

/-- The state transition of one `analyze` call. -/
def system_step (events : List Ev) (s : SystemState) : SystemState :=
  (system_analyze events s).2

/-- The classification (or error) produced by the `(n+1)`-th repeated
`analyze` call on an unchanged event log, starting from a fresh system. -/
def analyze_result_at (events : List Ev) (n : ℕ) :
    Except PyErr DropoutClassification :=
  (system_analyze events ((system_step events)^[n] {})).1

/-! ## Student view (`main.StudentView`) -/

/-- The output dictionary of `StudentView.generate_student_feedback`
(the `timestamp` field, an ISO-format clock reading, is omitted; the
`role` constant is kept). -/
structure StudentFeedback where
  role : String
  strengths : List String
  growth_areas : List (String × String × String)
  next_steps : List String
  difficulty_suggestion : String
  encouragement : String
  progress_summary : String
  deriving DecidableEq, Repr

/-- The rotating message list of `StudentView._generate_encouragement`. -/
def encouragement_messages : List String :=
  [ "Every attempt teaches you something new.",
    "You\x27re building problem-solving skills that will serve you well.",
    "Struggle is a sign of growth - you\x27re on the right path.",
    "Your persistence is impressive. Keep it up!",
    "Learning isn\x27t linear - setbacks are part of progress.",
    "You\x27re developing mastery. This takes time and effort.",
    "Trust the process. Your efforts will compound." ]

/-- `StudentView._generate_encouragement`. -/
def generate_encouragement (f : ComprehensiveFeatureSet) : String :=
  encouragement_messages.getD
    (f.learning_progress.attempt_count % encouragement_messages.length) ""

/-- `StudentView._generate_progress_summary`. -/
def generate_progress_summary (f : ComprehensiveFeatureSet) : String :=
  match f.learning_progress.learning_state with
  | .PROGRESSING => "You\x27re moving forward! 📈"
  | .PLATEAU => "You\x27re building strength. 💪"
  | .STALLED => "Time for a new strategy. 🔄"

/-- The positive-reinforcement list of `generate_student_feedback`. -/
def student_strengths (f : ComprehensiveFeatureSet) : List String :=
  (if f.learning_progress.improvement_score > 60 then
      ["You\x27re showing solid improvement on this topic!"] else []) ++
  (if f.learning_progress.attempt_count > 1 ∧ f.stagnation.is_stalled = false then
      ["Great persistence - you\x27re working through challenges."] else []) ++
  (if f.behavioral_disengagement.consistency_score > 70 then
      ["Your engagement is consistent and focused."] else [])

/-- The stalled growth-area message. -/
def stalled_message (f : ComprehensiveFeatureSet) : String :=
  "You\x27ve been on this problem for " ++
    pyformat_f0 f.stagnation.stagnation_duration_minutes ++
    " minutes. Sometimes stepping back and viewing the problem differently helps. Would you like a hint or to review the concept again?"

/-- The concept-reinforcement growth-area message (it embeds the
analyzer-supplied conceptual gap description verbatim). -/
def misconception_message (f : ComprehensiveFeatureSet) : String :=
  "Let\x27s review: " ++ f.ai_reasoning.conceptual_gap_description ++
    " Understanding this deeply will help with similar problems."

/-- The encouraging-guidance list of `generate_student_feedback`:
(area, message, action) triples. -/
def student_growth_areas (f : ComprehensiveFeatureSet) :
    List (String × String × String) :=
  (if f.stagnation.is_stalled then
      [("Try a Different Approach", stalled_message f, "OFFER_HINT")]
    else []) ++
  (if f.ai_reasoning.misconception_patterns.length > 0 then
      [("Concept Reinforcement", misconception_message f, "SUGGEST_RESOURCE")]
    else []) ++
  (if f.behavioral_disengagement.average_gap_increasing then
      [("Stay Engaged",
        "We notice you\x27re taking longer between attempts. Keep the momentum going - you\x27re close to breakthrough!",
        "MOTIVATIONAL_CHECK_IN")]
    else []) ++
  (if f.learning_progress.semantic_change_score < 40 ∧
      f.learning_progress.attempt_count ≥ 3 then
      [("Deepen Your Understanding",
        "Your answers are changing, but let\x27s focus on understanding the underlying concept better.",
        "CONCEPTUAL_SUPPORT")]
    else [])

/-- `StudentView.generate_student_feedback`.  The `classification`
argument is accepted, exactly as in the source, where it is never read. -/
def generate_student_feedback (f : ComprehensiveFeatureSet)
    (_classification : DropoutClassification) : StudentFeedback :=
  let growth_areas := student_growth_areas f
  let difficulty_suggestion :=
    match f.learning_progress.learning_state with
    | .PROGRESSING => "You\x27re ready for a challenge! Try the next problem level."
    | .PLATEAU => "Keep practicing at this level - you\x27ll break through soon."
    | .STALLED => "Let\x27s review the fundamentals to build a stronger foundation."
  { role := "STUDENT"
    strengths := student_strengths f
    growth_areas := growth_areas
    next_steps := growth_areas.map (fun g => g.2.1)
    difficulty_suggestion := difficulty_suggestion
    encouragement := generate_encouragement f
    progress_summary := generate_progress_summary f }

/-- Every string field of the student feedback, flattened. -/
def feedback_strings (fb : StudentFeedback) : List String :=
  fb.role :: fb.strengths ++
    fb.growth_areas.map (fun g => g.1) ++
    fb.growth_areas.map (fun g => g.2.1) ++
    fb.growth_areas.map (fun g => g.2.2) ++
    fb.next_steps ++
    [fb.difficulty_suggestion, fb.encouragement, fb.progress_summary]

/-! ## Event collector ordering (`event_collector.py`) -/

/-- The global, ordering-relevant state of `EventCollector`: the
append-only event list (all keys) and `_last_timestamp`. -/
structure CollectorState where
  events : List Ev := []
  last_timestamp : Option ℚ := none
  deriving DecidableEq, Repr

/-- The failure mode of the ordering check (`§7 OrderingViolation`,
raised as `ValueError` in the source). -/
inductive OrderingViolation where
  | orderingViolation
  deriving DecidableEq, Repr

/-- `EventCollector.record_event` with the server-assigned timestamp
made explicit: reject when a previous event exists and the new timestamp
precedes it (raising before any mutation), otherwise update
`_last_timestamp`, construct the event and append it. -/
def record_event (st : CollectorState) (etype : EventType) (answer : String)
    (is_correct : Bool) (time_spent_seconds : ℚ) (timestamp : ℚ) :
    Except OrderingViolation (Ev × CollectorState) :=
  match st.last_timestamp with
  | some last =>
      if timestamp < last then .error .orderingViolation
      else
        let e : Ev := { etype := etype, answer := answer,
                        is_correct := is_correct,
                        time_spent_seconds := time_spent_seconds,
                        timestamp := timestamp }
        .ok (e, { events := st.events ++ [e], last_timestamp := some timestamp })
  | none =>
      let e : Ev := { etype := etype, answer := answer,
                      is_correct := is_correct,
                      time_spent_seconds := time_spent_seconds,
                      timestamp := timestamp }
      .ok (e, { events := st.events ++ [e], last_timestamp := some timestamp })

/-! ## Specification-side definitions

These follow the wording of the specification / claims, to be compared
against the source-derived definitions above. -/

/-- The LMI pipeline in the order the specification sentence states it:
start from the improvement score, add the semantic bonus, multiply by
the learning-state multiplier, subtract the stagnation penalty, multiply
by integrity/100, multiply by the analyzer confidence, clamp to
`[0,100]`. -/
def lmi_spec_pipeline (f : ComprehensiveFeatureSet) : ℚ :=
  let base := f.learning_progress.improvement_score
  let after_bonus := base + f.learning_progress.semantic_change_score / 100 * 15
  let after_multiplier :=
    after_bonus * learning_state_multiplier f.learning_progress.learning_state
  let after_penalty := after_multiplier - stagnation_penalty f.stagnation
  let after_integrity := after_penalty * (f.integrity.integrity_score / 100)
  let after_confidence := after_integrity * f.ai_reasoning.llm_confidence_estimate
  max 0 (min 100 after_confidence)

/-- The LMI formula the code actually computes, stated as one plain
expression: `(improvement × multiplier + semantic bonus) ×
(integrity/100) × confidence − penalty`, clamped to `[0,100]`. -/
def lmi_amended_pipeline (f : ComprehensiveFeatureSet) : ℚ :=
  max 0 (min 100
    ((f.learning_progress.improvement_score
        * learning_state_multiplier f.learning_progress.learning_state
      + f.learning_progress.semantic_change_score / 100 * 15)
      * (f.integrity.integrity_score / 100)
      * f.ai_reasoning.llm_confidence_estimate
      - stagnation_penalty f.stagnation))

/-- A feature set separating the two pipeline orders: improvement 50,
no semantic change, plateau state, 20 stalled-free stagnation minutes
(penalty 15), integrity 50, analyzer confidence 1. -/
def c1_features : ComprehensiveFeatureSet :=
  { learning_progress :=
      { attempt_count := 4
        attempt_frequency := 1
        time_spent_per_attempt := [60, 60, 60, 60]
        improvement_score := 50
        semantic_change_score := 0
        learning_state := .PLATEAU }
    stagnation :=
      { stagnation_duration_minutes := 20
        repeat_attempt_count := 4
        concept_revisit_frequency := 3 }
    integrity :=
      { integrity_score := 50
        reasoning_continuity := .HIGH
        sudden_jump_flag := false
        external_assistance_likelihood := 1/10 }
    ai_reasoning :=
      { conceptual_gap_description := ""
        learning_summary := ""
        llm_confidence_estimate := 1 }
    competition_aware := {}
    behavioral_disengagement := {} }

/-- C1 counterexample: on `c1_features` the code computes
`(50·1 + 0)·(1/2)·1 − 15 = 10`, while the pipeline in the claimed order
gives `((50 + 0)·1 − 15)·(1/2)·1 = 17.5`. -/
theorem calculate_lmi_not_spec_pipeline :
    calculate_lmi_score c1_features ≠ lmi_spec_pipeline c1_features := by
  have h1 : calculate_lmi_score c1_features = 10 := by
    simp only [calculate_lmi_score, c1_features, learning_state_multiplier,
      stagnation_penalty]
    norm_num
  have h2 : lmi_spec_pipeline c1_features = 35/2 := by
    simp only [lmi_spec_pipeline, c1_features, learning_state_multiplier,
      stagnation_penalty]
    norm_num
  rw [h1, h2]
  norm_num

/-- C1 amended: for every feature set the LMI equals
`(improvement × state multiplier + semantic bonus) × (integrity/100)
× analyzer confidence − stagnation penalty`, clamped to `[0,100]` —
the semantic bonus escapes the multiplier and the penalty is applied
after the two multiplicative factors. -/
theorem calculate_lmi_amended_pipeline (f : ComprehensiveFeatureSet) :
    calculate_lmi_score f = lmi_amended_pipeline f := rfl

/-- The classification-confidence formula in the claim's wording: DRS
confidence, plus `0.1` for co-occurring types, plus `0.15` for strong
agreement, minus `0.1` for conflict, clamped once to `[0.3, 1]`. -/
def classification_confidence_claim (is_dropout : Bool)
    (dropout_types : List DropoutType) (drs : DropoutRiskScore)
    (lmi : LearningMomentumIndex) : ℚ :=
  let strongly_agree : Prop :=
    if is_dropout then lmi.lmi_score < 40 ∧ drs.drs_score > 6/10
    else lmi.lmi_score > 70 ∧ drs.drs_score < 3/10
  let conflict : Prop := is_dropout = true ∧ drs.drs_score < 1/2
  max (3/10) (min 1
    (drs.confidence
      + (if dropout_types.length > 1 then 1/10 else 0)
      + (if strongly_agree then 15/100 else 0)
      - (if conflict then 1/10 else 0)))

/-- The classification-confidence computation as the code performs it,
restated as one plain formula: the same additive boosts, but the
conflict deduction never lowers the value below `0.5`. -/
def classification_confidence_amended (is_dropout : Bool)
    (dropout_types : List DropoutType) (drs : DropoutRiskScore)
    (lmi : LearningMomentumIndex) : ℚ :=
  let strongly_agree : Prop :=
    if is_dropout then lmi.lmi_score < 40 ∧ drs.drs_score > 6/10
    else lmi.lmi_score > 70 ∧ drs.drs_score < 3/10
  let conflict : Prop := is_dropout = true ∧ drs.drs_score < 1/2
  let boosted := drs.confidence
    + (if dropout_types.length > 1 then 1/10 else 0)
    + (if strongly_agree then 15/100 else 0)
  max (3/10) (min 1
    (if conflict then max (1/2) (boosted - 1/10) else boosted))

/-- A DRS record exhibiting the C8 divergence: confidence `0.35`
(achievable as `0.5 − 0.15` conflicting-signal deduction), score `0.4`. -/
def c8_drs : DropoutRiskScore :=
  { drs_score := 4/10
    confidence := 35/100
    risk_level := "MEDIUM"
    primary_risk_factors := [] }

/-- An LMI record for the C8 divergence (score 60: no strong agreement). -/
def c8_lmi : LearningMomentumIndex :=
  { lmi_score := 60
    momentum_direction := .STABLE
    decay_rate := 21/100 }

/-- C8 counterexample: a dropout classification with one type, DRS
confidence `0.35` and DRS score `0.4` (a conflict): the code floors the
deduction at `0.5` and returns `0.5`, the claimed formula returns
`max(0.3, 0.25) = 0.3`. -/
theorem classification_confidence_not_claim :
    calculate_classification_confidence true [.BEHAVIORAL] c8_drs c8_lmi ≠
      classification_confidence_claim true [.BEHAVIORAL] c8_drs c8_lmi := by
  have h1 : calculate_classification_confidence true [.BEHAVIORAL] c8_drs c8_lmi
      = 1/2 := by
    simp only [calculate_classification_confidence, c8_drs, c8_lmi]
    norm_num
  have h2 : classification_confidence_claim true [.BEHAVIORAL] c8_drs c8_lmi
      = 3/10 := by
    simp only [classification_confidence_claim, c8_drs, c8_lmi]
    norm_num
  rw [h1, h2]
  norm_num

/-- C8 amended: for every classification whose DRS confidence is at most
`0.9` (every value `_calculate_drs_confidence` can produce), the
classification confidence equals DRS confidence, `+0.1` when at least
two types co-occur, `+0.15` when LMI and DRS strongly agree, and on a
conflict (dropout with DRS < 0.5) `−0.1` but never below `0.5`; the
result is clamped to `[0.3, 1]`. -/
theorem classification_confidence_amended_eq (is_dropout : Bool)
    (dropout_types : List DropoutType) (drs : DropoutRiskScore)
    (lmi : LearningMomentumIndex) (h : drs.confidence ≤ 9/10) :
    calculate_classification_confidence is_dropout dropout_types drs lmi =
      classification_confidence_amended is_dropout dropout_types drs lmi := by
  have hmin1 : min 1 (drs.confidence + 1/10) = drs.confidence + 1/10 :=
    min_eq_right (by linarith)
  have hminmin : ∀ x : ℚ, min 1 (min 1 x) = min 1 x := fun x => by
    rw [← min_assoc, min_self]
  rcases is_dropout with _ | _
  · -- is_dropout = false: the conflict branch is off
    simp only [calculate_classification_confidence,
      classification_confidence_amended, Bool.false_eq_true, false_and,
      if_false, reduceIte]
    by_cases hagree : lmi.lmi_score > 70 ∧ drs.drs_score < 3/10
    · rw [if_pos hagree, if_pos hagree]
      by_cases hty : dropout_types.length > 1
      · rw [if_pos hty, if_pos hty, hmin1, hminmin]
      · rw [if_neg hty, if_neg hty, hminmin, add_zero]
    · rw [if_neg hagree, if_neg hagree, add_zero]
      by_cases hty : dropout_types.length > 1
      · rw [if_pos hty, if_pos hty, hminmin, hmin1]
      · rw [if_neg hty, if_neg hty, add_zero]
  · -- is_dropout = true
    simp only [calculate_classification_confidence,
      classification_confidence_amended, true_and, reduceIte]
    by_cases hconf : drs.drs_score < 1/2
    · -- conflict: strong agreement is impossible (0.6 < drs < 0.5)
      have hnagree : ¬(lmi.lmi_score < 40 ∧ drs.drs_score > 6/10) := by
        rintro ⟨-, h6⟩; linarith
      rw [if_neg hnagree, if_neg hnagree, if_pos hconf, if_pos hconf, add_zero]
      by_cases hty : dropout_types.length > 1
      · rw [if_pos hty, if_pos hty, hmin1]
      · rw [if_neg hty, if_neg hty, add_zero]
    · rw [if_neg hconf, if_neg hconf]
      by_cases hagree : lmi.lmi_score < 40 ∧ drs.drs_score > 6/10
      · rw [if_pos hagree, if_pos hagree]
        by_cases hty : dropout_types.length > 1
        · rw [if_pos hty, if_pos hty, hmin1, hminmin]
        · rw [if_neg hty, if_neg hty, hminmin, add_zero]
      · rw [if_neg hagree, if_neg hagree, add_zero]
        by_cases hty : dropout_types.length > 1
        · rw [if_pos hty, if_pos hty, hminmin, hmin1]
        · rw [if_neg hty, if_neg hty, add_zero]

/-- C8 amended, witnessed at the counterexample inputs: the DRS
confidence `0.35` satisfies the `≤ 0.9` bound and the two formulas
agree there. -/
theorem classification_confidence_amended_eq_witness :
    c8_drs.confidence ≤ 9/10 ∧
      calculate_classification_confidence true [.BEHAVIORAL] c8_drs c8_lmi =
        classification_confidence_amended true [.BEHAVIORAL] c8_drs c8_lmi :=
  ⟨by norm_num [c8_drs],
    classification_confidence_amended_eq true [.BEHAVIORAL] c8_drs c8_lmi
      (by norm_num [c8_drs])⟩

/-- C4: the silent type fires exactly on the claimed condition:
(decelerating ∧ LMI < 50 ∧ consistency > 50 ∧ gap not increasing ∧
(semantic change < 25 ∨ no-progress)) ∨ (LMI < 35 ∧ DRS > 0.7 ∧ no
recorded gaps). -/
theorem silent_dropout_rule (f : ComprehensiveFeatureSet)
    (lmi : LearningMomentumIndex) (drs : DropoutRiskScore) :
    is_silent_dropout f lmi drs = true ↔
      ((lmi.momentum_direction = .DECELERATING ∧ lmi.lmi_score < 50 ∧
        f.behavioral_disengagement.consistency_score > 50 ∧
        f.behavioral_disengagement.average_gap_increasing = false ∧
        (f.learning_progress.semantic_change_score < 25 ∨
          f.learning_progress.no_progress_flag = true)) ∨
      (lmi.lmi_score < 35 ∧ drs.drs_score > 7/10 ∧
        f.behavioral_disengagement.attempt_gap_time = [])) := by
  simp only [is_silent_dropout, Bool.or_eq_true, decide_eq_true_eq,
    List.length_eq_zero]
  tauto

/-- The event value `record_event` constructs. -/
def made_event (etype : EventType) (answer : String) (is_correct : Bool)
    (time_spent_seconds : ℚ) (timestamp : ℚ) : Ev :=
  { etype := etype, answer := answer, is_correct := is_correct,
    time_spent_seconds := time_spent_seconds, timestamp := timestamp }

/-- C6: `record_event` rejects (with the OrderingViolation failure mode,
recording nothing) exactly when a previously recorded event exists
whose timestamp the new one precedes; otherwise it appends the new
event to the global log and returns it. -/
theorem record_event_ordering (st : CollectorState) (etype : EventType)
    (answer : String) (is_correct : Bool) (time_spent : ℚ) (timestamp : ℚ) :
    ((∃ last, st.last_timestamp = some last ∧ timestamp < last) →
        record_event st etype answer is_correct time_spent timestamp =
          .error .orderingViolation) ∧
    ((∀ last, st.last_timestamp = some last → ¬ timestamp < last) →
        record_event st etype answer is_correct time_spent timestamp =
          .ok (made_event etype answer is_correct time_spent timestamp,
            { events :=
                st.events ++ [made_event etype answer is_correct time_spent timestamp]
              last_timestamp := some timestamp })) := by
  constructor
  · rintro ⟨last, hlast, hlt⟩
    simp only [record_event, hlast, if_pos hlt]
  · intro hok
    match hst : st.last_timestamp with
    | some last =>
        simp only [record_event, hst, if_neg (hok last hst), made_event]
    | none =>
        simp only [record_event, hst, made_event]

/-- C6 witness: with a last timestamp of `5`, recording at time `3` is
rejected, and recording at time `7` appends the event. -/
theorem record_event_ordering_witness :
    (record_event { events := [], last_timestamp := some 5 }
        .question_start "" false 0 3 = .error .orderingViolation) ∧
    (record_event { events := [], last_timestamp := some 5 }
        .question_start "" false 0 7 =
      .ok (made_event .question_start "" false 0 7,
        { events := [made_event .question_start "" false 0 7]
          last_timestamp := some 7 })) := by
  constructor
  · exact (record_event_ordering
      { events := [], last_timestamp := some 5 } .question_start "" false 0 3).1
      ⟨5, rfl, by norm_num⟩
  · exact (record_event_ordering
      { events := [], last_timestamp := some 5 } .question_start "" false 0 7).2
      (by rintro last ⟨rfl⟩; norm_num)

/-- C10: for every event list the integrity score is `100`, `80` or
`65` (so never below `65`), and the assistance likelihood exceeds `0.5`
only when the sudden-jump flag is set. -/
theorem integrity_signal_values (events : List Ev) :
    ((extract_integrity_signals events).integrity_score = 100 ∨
      (extract_integrity_signals events).integrity_score = 80 ∨
      (extract_integrity_signals events).integrity_score = 65) ∧
    ((extract_integrity_signals events).external_assistance_likelihood > 1/2 →
      (extract_integrity_signals events).sudden_jump_flag = true) := by
  have hcl : ∀ (h : List Attempt) (j : Bool),
      (continuity_likelihood h j).2 = 1/10 ∨
      (continuity_likelihood h j).2 = 3/10 ∨
      ((continuity_likelihood h j).2 = 6/10 ∧ j = true) := by
    intro h j
    simp only [continuity_likelihood]
    split_ifs with h1 h2 h3 <;> simp_all
  simp only [extract_integrity_signals]
  split_ifs with h1 h2 h3 h4
  · exact ⟨Or.inl rfl, by norm_num⟩
  · exact ⟨Or.inr (Or.inr (by norm_num)), fun _ => h2⟩
  · exact ⟨Or.inr (Or.inl (by norm_num)), fun hx => absurd hx h3⟩
  · rcases hcl (build_attempt_history events)
        (sudden_jump_of (build_attempt_history events)) with hl | hl | ⟨hl, hj⟩
    · rw [hl] at h4; norm_num at h4
    · rw [hl] at h4; norm_num at h4
    · exact absurd hj h2
  · exact ⟨Or.inl (by norm_num), fun hx => absurd hx h4⟩

/-- Events realizing the low-integrity branch: a short wrong answer
followed by a long correct one (sudden jump, high length variance). -/
def c10_events : List Ev :=
  [ { etype := .question_submit, answer := "a", is_correct := false,
      time_spent_seconds := 30, timestamp := 0 },
    { etype := .question_submit, answer := "abcdefghij", is_correct := true,
      time_spent_seconds := 30, timestamp := 60 } ]

/-- C10 witness: on `c10_events` the assistance likelihood is `0.6 >
0.5`, and the theorem then forces the sudden-jump flag (the score is
`65`). -/
theorem integrity_signal_values_witness :
    (extract_integrity_signals c10_events).external_assistance_likelihood > 1/2 ∧
      (extract_integrity_signals c10_events).sudden_jump_flag = true ∧
      (extract_integrity_signals c10_events).integrity_score = 65 := by
  have hlik :
      (extract_integrity_signals c10_events).external_assistance_likelihood
        = 6/10 := by
    simp only [extract_integrity_signals, c10_events]
    norm_num [build_attempt_history, submit_events, correctness_progression,
      sudden_jump_of, continuity_likelihood, pyvariance, pymean, List.filter,
      show "a".length = 1 from rfl, show "abcdefghij".length = 10 from rfl]
  have hscore : (extract_integrity_signals c10_events).integrity_score = 65 := by
    simp only [extract_integrity_signals, c10_events]
    norm_num [build_attempt_history, submit_events, correctness_progression,
      sudden_jump_of, continuity_likelihood, pyvariance, pymean, List.filter,
      show "a".length = 1 from rfl, show "abcdefghij".length = 10 from rfl]
  refine ⟨by rw [hlik]; norm_num, ?_, hscore⟩
  exact (integrity_signal_values c10_events).2 (by rw [hlik]; norm_num)

/-! ## Bounds of the scoring engine (C3) -/

lemma calculate_lmi_score_bounds (f : ComprehensiveFeatureSet) :
    0 ≤ calculate_lmi_score f ∧ calculate_lmi_score f ≤ 100 :=
  ⟨le_max_left 0 _, max_le (by norm_num) (min_le_left 100 _)⟩

lemma score_lmi_component_bounds (lmi_history : List ℚ)
    (f : ComprehensiveFeatureSet) :
    0 ≤ score_lmi_component lmi_history f ∧
      score_lmi_component lmi_history f ≤ 1 :=
  ⟨le_max_left 0 _, max_le (by norm_num) (min_le_left 1 _)⟩

lemma score_stagnation_component_bounds (f : ComprehensiveFeatureSet)
    (hdur : 0 ≤ f.stagnation.stagnation_duration_minutes) :
    0 ≤ score_stagnation_component f ∧ score_stagnation_component f ≤ 1 := by
  simp only [score_stagnation_component]
  split_ifs
  · norm_num
  · have h1 : 0 ≤ min 1 (f.stagnation.stagnation_duration_minutes / 60) :=
      le_min (by norm_num) (by positivity)
    have h2 : 0 ≤ min 1 ((f.stagnation.repeat_attempt_count : ℚ) / 5) :=
      le_min (by norm_num) (by positivity)
    have h3 : min 1 (f.stagnation.stagnation_duration_minutes / 60) ≤ 1 :=
      min_le_left 1 _
    have h4 : min 1 ((f.stagnation.repeat_attempt_count : ℚ) / 5) ≤ 1 :=
      min_le_left 1 _
    constructor <;> linarith

lemma score_behavioral_component_bounds (f : ComprehensiveFeatureSet)
    (hcons : f.behavioral_disengagement.consistency_score ≤ 100) :
    0 ≤ score_behavioral_component f ∧ score_behavioral_component f ≤ 1 := by
  simp only [score_behavioral_component]
  refine ⟨le_min (by norm_num) ?_, min_le_left 1 _⟩
  have h1 : 0 ≤ (1 - f.behavioral_disengagement.consistency_score / 100) * (4/10) := by
    have : f.behavioral_disengagement.consistency_score / 100 ≤ 1 := by linarith
    nlinarith
  rcases f.behavioral_disengagement.daily_attempt_count with _ | ⟨n, l⟩ <;>
    simp only [] <;> split_ifs <;> linarith

lemma score_integrity_component_bounds (f : ComprehensiveFeatureSet)
    (hlik : 0 ≤ f.integrity.external_assistance_likelihood) :
    0 ≤ score_integrity_component f ∧ score_integrity_component f ≤ 1 := by
  simp only [score_integrity_component]
  refine ⟨le_min (by norm_num) ?_, min_le_left 1 _⟩
  have h1 : 0 ≤ f.integrity.external_assistance_likelihood * (3/10) := by positivity
  cases f.integrity.reasoning_continuity <;> split_ifs <;>
    simp only [] <;> linarith

lemma score_competition_component_bounds (f : ComprehensiveFeatureSet)
    (hrpi : f.competition_aware.relative_progress_index ≤ 100) :
    0 ≤ score_competition_component f ∧ score_competition_component f ≤ 1 := by
  simp only [score_competition_component]
  refine ⟨le_min (by norm_num) ?_, min_le_left 1 _⟩
  have h1 : 0 ≤ (1 - f.competition_aware.relative_progress_index / 100) * (3/10) := by
    have : f.competition_aware.relative_progress_index / 100 ≤ 1 := by linarith
    nlinarith
  have h2 : 0 ≤
      (match f.competition_aware.rank_delta with
        | some d => if d > 0 then min (4/10) ((d : ℚ) / 100) else 0
        | none => 0 : ℚ) := by
    rcases f.competition_aware.rank_delta with _ | d
    · norm_num
    · simp only []
      split_ifs with hd
      · refine le_min (by norm_num) ?_
        have : (0 : ℚ) < (d : ℚ) := by exact_mod_cast hd
        positivity
      · norm_num
  split_ifs <;> linarith

lemma score_engagement_component_bounds (f : ComprehensiveFeatureSet) :
    0 ≤ score_engagement_component f ∧ score_engagement_component f ≤ 1 := by
  simp only [score_engagement_component]
  refine ⟨le_min (by norm_num) ?_, min_le_left 1 _⟩
  split_ifs <;> norm_num

/-- C3: the LMI score is clamped into `[0,100]`, and with the signal
fields inside their documented ranges (duration ≥ 0, consistency ≤ 100,
assistance likelihood ≥ 0, relative progress ≤ 100) each of the six DRS
component risks lies in `[0,1]`, so their weighted sum — the weights
`0.35+0.25+0.15+0.10+0.10+0.05` sum to 1 — lies in `[0,1]`. -/
theorem lmi_drs_bounds (lmi_history : List ℚ) (f : ComprehensiveFeatureSet)
    (hdur : 0 ≤ f.stagnation.stagnation_duration_minutes)
    (hcons : f.behavioral_disengagement.consistency_score ≤ 100)
    (hlik : 0 ≤ f.integrity.external_assistance_likelihood)
    (hrpi : f.competition_aware.relative_progress_index ≤ 100) :
    (0 ≤ calculate_lmi_score f ∧ calculate_lmi_score f ≤ 100) ∧
    (0 ≤ score_lmi_component lmi_history f ∧
      score_lmi_component lmi_history f ≤ 1) ∧
    (0 ≤ score_stagnation_component f ∧ score_stagnation_component f ≤ 1) ∧
    (0 ≤ score_behavioral_component f ∧ score_behavioral_component f ≤ 1) ∧
    (0 ≤ score_integrity_component f ∧ score_integrity_component f ≤ 1) ∧
    (0 ≤ score_competition_component f ∧ score_competition_component f ≤ 1) ∧
    (0 ≤ score_engagement_component f ∧ score_engagement_component f ≤ 1) ∧
    (0 ≤ calculate_drs_score lmi_history f ∧
      calculate_drs_score lmi_history f ≤ 1) := by
  obtain ⟨h1a, h1b⟩ := score_lmi_component_bounds lmi_history f
  obtain ⟨h2a, h2b⟩ := score_stagnation_component_bounds f hdur
  obtain ⟨h3a, h3b⟩ := score_behavioral_component_bounds f hcons
  obtain ⟨h4a, h4b⟩ := score_integrity_component_bounds f hlik
  obtain ⟨h5a, h5b⟩ := score_competition_component_bounds f hrpi
  obtain ⟨h6a, h6b⟩ := score_engagement_component_bounds f
  refine ⟨calculate_lmi_score_bounds f, ⟨h1a, h1b⟩, ⟨h2a, h2b⟩, ⟨h3a, h3b⟩,
    ⟨h4a, h4b⟩, ⟨h5a, h5b⟩, ⟨h6a, h6b⟩, ?_, ?_⟩ <;>
    simp only [calculate_drs_score] <;> nlinarith

/-- C3 witness: the bounds theorem applied to the concrete feature set
`c1_features` (all fields in range), where the LMI is `10` and the DRS
components evaluate inside `[0,1]`. -/
theorem lmi_drs_bounds_witness :
    (0 ≤ c1_features.stagnation.stagnation_duration_minutes ∧
      c1_features.behavioral_disengagement.consistency_score ≤ 100 ∧
      0 ≤ c1_features.integrity.external_assistance_likelihood ∧
      c1_features.competition_aware.relative_progress_index ≤ 100) ∧
    ((0 ≤ calculate_lmi_score c1_features ∧
        calculate_lmi_score c1_features ≤ 100) ∧
      (0 ≤ score_lmi_component [] c1_features ∧
        score_lmi_component [] c1_features ≤ 1) ∧
      (0 ≤ score_stagnation_component c1_features ∧
        score_stagnation_component c1_features ≤ 1) ∧
      (0 ≤ score_behavioral_component c1_features ∧
        score_behavioral_component c1_features ≤ 1) ∧
      (0 ≤ score_integrity_component c1_features ∧
        score_integrity_component c1_features ≤ 1) ∧
      (0 ≤ score_competition_component c1_features ∧
        score_competition_component c1_features ≤ 1) ∧
      (0 ≤ score_engagement_component c1_features ∧
        score_engagement_component c1_features ≤ 1) ∧
      (0 ≤ calculate_drs_score [] c1_features ∧
        calculate_drs_score [] c1_features ≤ 1)) :=
  ⟨⟨by norm_num [c1_features], by norm_num [c1_features],
    by norm_num [c1_features], by norm_num [c1_features]⟩,
    lmi_drs_bounds [] c1_features (by norm_num [c1_features])
      (by norm_num [c1_features]) (by norm_num [c1_features])
      (by norm_num [c1_features])⟩

/-! ## The healthy scenario (C5): one immediately correct 45-second
attempt (`test_healthy_learner`) -/

/-- Events of the healthy scenario: question start, then one correct
submission with 45 seconds spent. -/
def healthy_events : List Ev :=
  [ { etype := .question_start, timestamp := 0 },
    { etype := .question_submit, answer := "4", is_correct := true,
      time_spent_seconds := 45, timestamp := 45 } ]

/-- The feature set the extractor plus mock analyzer produce for the
healthy scenario. -/
def healthy_features : ComprehensiveFeatureSet :=
  { learning_progress :=
      { attempt_count := 1
        attempt_frequency := 0
        time_spent_per_attempt := [45]
        improvement_score := 100
        change_type := []
        semantic_change_score := 0
        no_progress_flag := false
        learning_state := .PROGRESSING }
    stagnation :=
      { stagnation_duration_minutes := 0
        repeat_attempt_count := 1
        concept_revisit_frequency := 0
        is_stalled := false
        stagnation_severity := 20 }
    integrity :=
      { integrity_score := 100
        reasoning_continuity := .HIGH
        sudden_jump_flag := false
        external_assistance_likelihood := 1/10 }
    ai_reasoning :=
      { conceptual_gap_description := "No gaps detected - solved on first attempt"
        learning_summary :=
          "Student made 1 attempt(s), succeeded on 1. Learning state: HIGH consistency, reasoning depth 85/100. "
        llm_confidence_estimate := 13/20
        misconception_patterns := []
        confidence_vs_correctness_gap := -10 }
    competition_aware :=
      { latest_mock_rank := none
        previous_mock_rank := none
        rank_delta := none
        relative_progress_index := 100
        competition_pressure_flag := false }
    behavioral_disengagement :=
      { attempt_gap_time := []
        daily_attempt_count := [1]
        consistency_score := 100
        average_gap_increasing := false } }

lemma healthy_progress_eq :
    extract_learning_progress_signals healthy_events =
      healthy_features.learning_progress := rfl

lemma healthy_stagnation_eq :
    extract_stagnation_signals healthy_events = healthy_features.stagnation := by
  simp only [extract_stagnation_signals,
    show build_attempt_history healthy_events =
      [{ answer := "4", timestamp := 45, is_correct := true }] from rfl,
    show submit_events healthy_events =
      [{ etype := .question_submit, answer := "4", is_correct := true,
         time_spent_seconds := 45, timestamp := 45 }] from rfl,
    show healthy_events.isEmpty = false from rfl,
    show correctness_progression
      [{ answer := "4", timestamp := 45, is_correct := true }] = [1] from rfl,
    show (List.filter (fun c => decide (c > 0)) [(1:ℚ)]).length = 1 from rfl,
    healthy_features]
  norm_num

lemma healthy_integrity_eq :
    extract_integrity_signals healthy_events = healthy_features.integrity := by
  simp only [extract_integrity_signals,
    show build_attempt_history healthy_events =
      [{ answer := "4", timestamp := 45, is_correct := true }] from rfl,
    show ([{ answer := "4", timestamp := 45, is_correct := true }] :
      List Attempt).isEmpty = false from rfl,
    show sudden_jump_of
      [{ answer := "4", timestamp := 45, is_correct := true }] = false from rfl,
    show continuity_likelihood
      [{ answer := "4", timestamp := 45, is_correct := true }] false
      = (.HIGH, 1/10) from rfl,
    healthy_features]
  norm_num

lemma healthy_ai_eq :
    analyze_attempt_progression (build_attempt_history healthy_events) =
      healthy_features.ai_reasoning := by
  simp only [analyze_attempt_progression,
    show build_attempt_history healthy_events =
      [{ answer := "4", timestamp := 45, is_correct := true }] from rfl,
    show ([{ answer := "4", timestamp := 45, is_correct := true }] :
      List Attempt).isEmpty = false from rfl,
    mock_analysis,
    show (List.filter (fun a : Attempt => a.is_correct)
      ([{ answer := "4", timestamp := 45, is_correct := true }] :
        List Attempt)).length = 1 from rfl,
    healthy_features]
  norm_num [show pyformat_nat 1 = "1" from rfl,
    show pyformat_nat 85 = "85" from rfl]
  try rfl

lemma healthy_competition_eq :
    extract_competition_aware_signals healthy_events none none =
      healthy_features.competition_aware := by
  simp only [extract_competition_aware_signals,
    show build_attempt_history healthy_events =
      [{ answer := "4", timestamp := 45, is_correct := true }] from rfl,
    show correctness_progression
      [{ answer := "4", timestamp := 45, is_correct := true }] = [1] from rfl,
    healthy_features]
  norm_num

lemma healthy_behavioral_eq :
    extract_behavioral_disengagement_signals healthy_events =
      healthy_features.behavioral_disengagement := rfl

lemma healthy_features_eq :
    extract_features_with_ai healthy_events none none = healthy_features := by
  unfold extract_features_with_ai
  rw [healthy_progress_eq, healthy_stagnation_eq, healthy_integrity_eq,
    healthy_ai_eq, healthy_competition_eq, healthy_behavioral_eq]
  rfl

lemma healthy_lmi_eq :
    calculate_lmi healthy_features none =
      { lmi_score := 78, momentum_direction := .STABLE, decay_rate := 1/20 } := by
  simp only [calculate_lmi, calculate_lmi_score, momentum_direction_of,
    calculate_decay_rate, healthy_features, learning_state_multiplier,
    stagnation_penalty]
  norm_num

lemma healthy_drs_eq :
    calculate_drs [78] healthy_features =
      { drs_score := 33/200
        confidence := 123/200
        risk_level := "LOW"
        primary_risk_factors := [] } := by
  simp only [calculate_drs, calculate_drs_score, calculate_drs_confidence,
    score_lmi_component, score_stagnation_component, score_behavioral_component,
    score_integrity_component, score_competition_component,
    score_engagement_component, drs_risk_level, identify_risk_factors,
    insert_desc, healthy_features]
  norm_num

/-- The classification the healthy scenario produces. -/
def healthy_classification : DropoutClassification :=
  { is_dropout := false
    dropout_types := []
    primary_reason := "Student showing healthy learning progression"
    lmi_score := 78
    drs_score := 33/200
    confidence := 153/200
    recommendation := "Continue monitoring. No immediate intervention needed."
    primary_risk_factors := [] }

/-- C5: on the healthy scenario the analysis succeeds with no dropout
types, LMI `78 > 70` and DRS `0.165 < 0.3`. -/
theorem healthy_case :
    ∃ c, analyze_result_at healthy_events 0 = .ok c ∧
      c.dropout_types = [] ∧ c.is_dropout = false ∧
      c.lmi_score > 70 ∧ c.drs_score < 3/10 := by
  have htypes :
      determine_dropout_types healthy_features
        { lmi_score := 78, momentum_direction := .STABLE, decay_rate := 1/20 }
        { drs_score := 33/200, confidence := 123/200, risk_level := "LOW",
          primary_risk_factors := [] } = [] := by
    simp only [determine_dropout_types, is_cognitive_dropout,
      is_behavioral_dropout, is_engagement_dropout, is_silent_dropout,
      healthy_features]
    norm_num
  refine ⟨healthy_classification, ?_, rfl, rfl, by norm_num [healthy_classification],
    by norm_num [healthy_classification]⟩
  show (system_analyze healthy_events ((system_step healthy_events)^[0] {})).1
    = _
  simp only [Function.iterate_zero, id_eq]
  rw [system_analyze.eq_def]
  rw [healthy_features_eq]
  dsimp only
  rw [classify.eq_def]
  rw [healthy_lmi_eq]
  dsimp only [List.nil_append]
  rw [healthy_drs_eq, htypes]
  dsimp only [generate_primary_reason, List.isEmpty_nil, if_true,
    generate_recommendation, Bool.not_true]
  norm_num [calculate_classification_confidence, healthy_classification]

/-! ## The empty baseline (C2): a key with zero submit events -/

/-- The feature set extracted for a key with no events at all. -/
def empty_features : ComprehensiveFeatureSet :=
  { learning_progress :=
      { attempt_count := 0
        attempt_frequency := 0
        time_spent_per_attempt := []
        improvement_score := 0
        change_type := []
        semantic_change_score := 0
        no_progress_flag := false
        learning_state := .PROGRESSING }
    stagnation :=
      { stagnation_duration_minutes := 0
        repeat_attempt_count := 0
        concept_revisit_frequency := 0
        is_stalled := false
        stagnation_severity := 0 }
    integrity :=
      { integrity_score := 100
        reasoning_continuity := .HIGH
        sudden_jump_flag := false
        external_assistance_likelihood := 0 }
    ai_reasoning :=
      { conceptual_gap_description := "No attempts recorded"
        learning_summary := "Student has not attempted this question"
        llm_confidence_estimate := 0
        misconception_patterns := []
        confidence_vs_correctness_gap := 0 }
    competition_aware :=
      { latest_mock_rank := none
        previous_mock_rank := none
        rank_delta := none
        relative_progress_index := 0
        competition_pressure_flag := true }
    behavioral_disengagement :=
      { attempt_gap_time := []
        daily_attempt_count := [0]
        consistency_score := 100
        average_gap_increasing := false } }

lemma zero_submit_history (events : List Ev)
    (h : submit_events events = []) :
    build_attempt_history events = [] := by
  simp [build_attempt_history, h]

lemma zero_submit_progress (events : List Ev)
    (h : submit_events events = []) :
    extract_learning_progress_signals events =
      empty_features.learning_progress := by
  simp only [extract_learning_progress_signals, zero_submit_history events h, h]
  rfl

lemma zero_submit_stagnation (events : List Ev)
    (h : submit_events events = []) :
    extract_stagnation_signals events = empty_features.stagnation := by
  cases events with
  | nil => rfl
  | cons e t =>
      simp only [extract_stagnation_signals, zero_submit_history (e :: t) h, h,
        List.isEmpty_cons, Bool.false_eq_true, if_false, List.length_nil]
      norm_num [correctness_progression, empty_features]

lemma zero_submit_integrity (events : List Ev)
    (h : submit_events events = []) :
    extract_integrity_signals events = empty_features.integrity := by
  simp only [extract_integrity_signals, zero_submit_history events h]
  rfl

lemma zero_submit_ai (events : List Ev)
    (h : submit_events events = []) :
    analyze_attempt_progression (build_attempt_history events) =
      empty_features.ai_reasoning := by
  rw [zero_submit_history events h]
  rfl

lemma zero_submit_competition (events : List Ev)
    (h : submit_events events = []) :
    extract_competition_aware_signals events none none =
      empty_features.competition_aware := by
  simp only [extract_competition_aware_signals, zero_submit_history events h]
  rfl

lemma zero_submit_behavioral (events : List Ev)
    (h : submit_events events = []) :
    extract_behavioral_disengagement_signals events =
      empty_features.behavioral_disengagement := by
  simp only [extract_behavioral_disengagement_signals, h]
  rfl

/-- Every per-key event list with no submit events produces exactly the
neutral feature set: the non-submit events are invisible to every
extractor (the stagnation extractor branches on the raw log being empty,
but its non-empty branch computes the same neutral record). -/
lemma zero_submit_features (events : List Ev)
    (h : submit_events events = []) :
    extract_features_with_ai events none none = empty_features := by
  simp only [extract_features_with_ai, zero_submit_progress events h,
    zero_submit_stagnation events h, zero_submit_integrity events h,
    zero_submit_ai events h, zero_submit_competition events h,
    zero_submit_behavioral events h]
  rfl

lemma empty_lmi_eq :
    calculate_lmi empty_features none =
      { lmi_score := 0, momentum_direction := .STABLE, decay_rate := 1/20 } := by
  simp only [calculate_lmi, calculate_lmi_score, momentum_direction_of,
    calculate_decay_rate, empty_features, learning_state_multiplier,
    stagnation_penalty]
  norm_num

lemma empty_drs_eq :
    calculate_drs [0] empty_features =
      { drs_score := 49/100
        confidence := 1/2
        risk_level := "MEDIUM"
        primary_risk_factors :=
          ["Declining learning momentum", "Competition pressure"] } := by
  simp only [calculate_drs, calculate_drs_score, calculate_drs_confidence,
    score_lmi_component, score_stagnation_component, score_behavioral_component,
    score_integrity_component, score_competition_component,
    score_engagement_component, drs_risk_level, identify_risk_factors,
    insert_desc, empty_features]
  norm_num
  norm_num [insert_desc]

/-- The classification the empty baseline produces. -/
def empty_classification : DropoutClassification :=
  { is_dropout := true
    dropout_types := [.COGNITIVE, .ENGAGEMENT]
    primary_reason :=
      "Cognitive: No attempts recorded | Engagement: Declining motivation due to competition pressure"
    lmi_score := 0
    drs_score := 49/100
    confidence := 1/2
    recommendation :=
      "🟡 MEDIUM: Provide step-by-step concept review and worked examples. Identify and address root misconceptions."
    primary_risk_factors :=
      ["Declining learning momentum", "Competition pressure"] }

lemma zero_submit_run_eq (events : List Ev)
    (h : submit_events events = []) :
    analyze_result_at events 0 = .ok empty_classification := by
  have htypes :
      determine_dropout_types empty_features
        { lmi_score := 0, momentum_direction := .STABLE, decay_rate := 1/20 }
        { drs_score := 49/100, confidence := 1/2, risk_level := "MEDIUM",
          primary_risk_factors :=
            ["Declining learning momentum", "Competition pressure"] }
        = [.COGNITIVE, .ENGAGEMENT] := by
    simp only [determine_dropout_types, is_cognitive_dropout,
      is_behavioral_dropout, is_engagement_dropout, is_silent_dropout,
      empty_features]
    norm_num
    decide
  show (system_analyze events ((system_step events)^[0] {})).1 = _
  simp only [Function.iterate_zero, id_eq]
  rw [system_analyze.eq_def]
  rw [zero_submit_features events h]
  dsimp only
  rw [classify.eq_def]
  rw [empty_lmi_eq]
  dsimp only [List.nil_append]
  rw [empty_drs_eq, htypes]
  rw [show generate_primary_reason [.COGNITIVE, .ENGAGEMENT] empty_features =
    .ok "Cognitive: No attempts recorded | Engagement: Declining motivation due to competition pressure"
    from rfl]
  dsimp only
  rw [show generate_recommendation [.COGNITIVE, .ENGAGEMENT]
      { drs_score := 49/100, confidence := 1/2, risk_level := "MEDIUM",
        primary_risk_factors :=
          ["Declining learning momentum", "Competition pressure"] } =
    "🟡 MEDIUM: Provide step-by-step concept review and worked examples. Identify and address root misconceptions."
    from rfl]
  norm_num [calculate_classification_confidence, empty_classification]

/-- A concrete zero-submit event log that is not empty: the student
opened the question and blurred focus but never submitted. -/
def c2_events : List Ev :=
  [{ etype := .question_start, timestamp := 0 },
   { etype := .focus_blur, timestamp := 5 }]

/-- C2 counterexample: for a key whose log holds only non-submit events
(a `question_start` and a `focus_blur`) the attempt count is 0 and the
analysis raises no error, but the classification's dropout flag is
`true` — not `false` as claimed: LMI is clamped to 0, which fires the
cognitive rule, and the empty correctness history sets the
competition-pressure flag, which fires the engagement rule. -/
theorem empty_baseline_counterexample :
    submit_events c2_events = [] ∧
    (extract_features_with_ai c2_events none none).learning_progress.attempt_count = 0 ∧
    analyze_result_at c2_events 0 = .ok empty_classification ∧
    empty_classification.is_dropout = true :=
  ⟨rfl, rfl, zero_submit_run_eq c2_events rfl, rfl⟩

/-- C2 amended: every key with zero recorded submit events — whatever
non-submit events its log holds — yields attempt count 0 and no error,
but the classifier reports a dropout with types
`[COGNITIVE, ENGAGEMENT]`, LMI `0` and DRS `0.49`. -/
theorem empty_baseline_amended (events : List Ev)
    (h : submit_events events = []) :
    (extract_features_with_ai events none none).learning_progress.attempt_count = 0 ∧
    ∃ c, analyze_result_at events 0 = .ok c ∧
      c.is_dropout = true ∧
      c.dropout_types = [.COGNITIVE, .ENGAGEMENT] ∧
      c.lmi_score = 0 ∧ c.drs_score = 49/100 := by
  refine ⟨?_, empty_classification, zero_submit_run_eq events h, rfl, rfl, rfl, rfl⟩
  rw [zero_submit_features events h]
  rfl

/-- Witness instantiating the amended C2 claim at the concrete
non-empty zero-submit log `c2_events`. -/
theorem empty_baseline_amended_witness :
    submit_events c2_events = [] ∧
    ((extract_features_with_ai c2_events none none).learning_progress.attempt_count = 0 ∧
     ∃ c, analyze_result_at c2_events 0 = .ok c ∧
       c.is_dropout = true ∧
       c.dropout_types = [.COGNITIVE, .ENGAGEMENT] ∧
       c.lmi_score = 0 ∧ c.drs_score = 49/100) :=
  ⟨rfl, empty_baseline_amended c2_events rfl⟩

/-! ## Student-view isolation (C7) -/

lemma toList_append (s t : String) : (s ++ t).toList = s.toList ++ t.toList :=
  rfl

lemma prefix_through_sep {α : Type} {c : α} {t a b : List α} (hc : c ∉ t)
    (h : t <+: a ++ c :: b) : t <+: a := by
  induction a generalizing t with
  | nil =>
      rcases List.prefix_cons_iff.mp h with rfl | ⟨t', rfl, -⟩
      · exact List.nil_prefix
      · exact absurd (List.mem_cons_self c t') hc
  | cons x a ih =>
      rcases List.prefix_cons_iff.mp h with rfl | ⟨t', rfl, ht'⟩
      · exact List.nil_prefix
      · exact List.cons_prefix_cons.mpr
          ⟨rfl, ih (fun hm => hc (List.mem_cons_of_mem _ hm)) ht'⟩

lemma infix_through_sep {α : Type} {c : α} {t a b : List α} (hc : c ∉ t)
    (h : t <:+: a ++ c :: b) : t <:+: a ∨ t <:+: b := by
  induction a generalizing t with
  | nil =>
      rcases List.infix_cons_iff.mp h with hp | hi
      · rcases List.prefix_cons_iff.mp hp with rfl | ⟨t', rfl, -⟩
        · exact Or.inl (List.infix_refl [])
        · exact absurd (List.mem_cons_self c t') hc
      · exact Or.inr hi
  | cons x a ih =>
      rcases List.infix_cons_iff.mp h with hp | hi
      · exact Or.inl (prefix_through_sep hc hp).isInfix
      · rcases ih hc hi with h1 | h2
        · exact Or.inl (List.infix_cons_iff.mpr (Or.inr h1))
        · exact Or.inr h2

lemma digit_char_ne_d (d : ℕ) : digit_char d ≠ 'd' := by
  rcases d with _ | _ | _ | _ | _ | _ | _ | _ | _ | d
  all_goals first
    | decide
    | exact (by decide : ('9' : Char) ≠ 'd')

lemma int_chars_ne_d {n : ℤ} {ch : Char} (h : ch ∈ int_chars n) : ch ≠ 'd' := by
  have hnat : ∀ m : ℕ, ch ∈ nat_chars m → ch ≠ 'd' := by
    intro m hm
    obtain ⟨d, -, rfl⟩ := List.mem_map.mp hm
    exact digit_char_ne_d d
  simp only [int_chars] at h
  split_ifs at h
  · rcases List.mem_cons.mp h with rfl | h
    · decide
    · exact hnat _ h
  · exact hnat _ h

lemma dropout_not_infix_pyformat_f0 (q : ℚ) :
    ¬ "dropout".toList <:+: (pyformat_f0 q).toList := by
  intro h
  have hd : 'd' ∈ (pyformat_f0 q).toList :=
    h.subset (by decide : 'd' ∈ "dropout".toList)
  exact int_chars_ne_d hd rfl

lemma dropout_not_infix_stalled_message (f : ComprehensiveFeatureSet) :
    ¬ "dropout".toList <:+: (stalled_message f).toList := by
  intro h
  have hshape : (stalled_message f).toList =
      "You\x27ve been on this problem for".toList ++
        ' ' :: ((pyformat_f0 f.stagnation.stagnation_duration_minutes).toList ++
          ' ' :: "minutes. Sometimes stepping back and viewing the problem differently helps. Would you like a hint or to review the concept again?".toList) := by
    simp only [stalled_message, toList_append]
    rw [show "You\x27ve been on this problem for ".toList =
      "You\x27ve been on this problem for".toList ++ [' '] from rfl]
    rw [show (" minutes. Sometimes stepping back and viewing the problem differently helps. Would you like a hint or to review the concept again?").toList =
      ' ' :: "minutes. Sometimes stepping back and viewing the problem differently helps. Would you like a hint or to review the concept again?".toList from rfl]
    simp [List.append_assoc]
  rw [hshape] at h
  have hc : ' ' ∉ "dropout".toList := by decide
  rcases infix_through_sep hc h with h1 | h2
  · exact absurd h1 (by decide)
  · rcases infix_through_sep hc h2 with h3 | h4
    · exact dropout_not_infix_pyformat_f0 _ h3
    · exact absurd h4 (by decide)

lemma dropout_not_infix_misconception_message (f : ComprehensiveFeatureSet)
    (hg : ¬ "dropout".toList <:+:
      f.ai_reasoning.conceptual_gap_description.toList) :
    ¬ "dropout".toList <:+: (misconception_message f).toList := by
  intro h
  have hshape : (misconception_message f).toList =
      "Let\x27s review:".toList ++
        ' ' :: (f.ai_reasoning.conceptual_gap_description.toList ++
          ' ' :: "Understanding this deeply will help with similar problems.".toList) := by
    simp only [misconception_message, toList_append]
    rw [show "Let\x27s review: ".toList = "Let\x27s review:".toList ++ [' ']
      from rfl]
    rw [show (" Understanding this deeply will help with similar problems.").toList =
      ' ' :: "Understanding this deeply will help with similar problems.".toList
      from rfl]
    simp [List.append_assoc]
  rw [hshape] at h
  have hc : ' ' ∉ "dropout".toList := by decide
  rcases infix_through_sep hc h with h1 | h2
  · exact absurd h1 (by decide)
  · rcases infix_through_sep hc h2 with h3 | h4
    · exact hg h3
    · exact absurd h4 (by decide)

/-- A feature set whose analyzer-supplied conceptual gap description
contains the word "dropout" and reports a misconception. -/
def c7_features : ComprehensiveFeatureSet :=
  { learning_progress :=
      { attempt_count := 0
        attempt_frequency := 0
        time_spent_per_attempt := []
        improvement_score := 0 }
    stagnation :=
      { stagnation_duration_minutes := 0
        repeat_attempt_count := 0
        concept_revisit_frequency := 0 }
    integrity :=
      { integrity_score := 100
        reasoning_continuity := .HIGH
        sudden_jump_flag := false
        external_assistance_likelihood := 0 }
    ai_reasoning :=
      { conceptual_gap_description := "dropout risk factors"
        learning_summary := ""
        llm_confidence_estimate := 0
        misconception_patterns := ["misconception"] }
    competition_aware := {}
    behavioral_disengagement := {} }

/-- An arbitrary classification to feed the (classification-ignoring)
student view. -/
def c7_classification : DropoutClassification :=
  { is_dropout := true
    dropout_types := [.SILENT]
    primary_reason := ""
    lmi_score := 0
    drs_score := 1
    confidence := 1/2
    recommendation := ""
    primary_risk_factors := [] }

/-- C7 counterexample: the student view pipes the analyzer's conceptual
gap description into a growth-area message verbatim, so a feature set
whose gap description contains "dropout" makes the word appear in the
student output. -/
theorem student_view_contains_dropout :
    ∃ s ∈ feedback_strings (generate_student_feedback c7_features
      c7_classification), "dropout".toList <:+: s.toList := by
  refine ⟨misconception_message c7_features, ?_, by decide⟩
  simp [feedback_strings, generate_student_feedback, student_growth_areas,
    c7_features]

/-- C7 amended: the student view is independent of the classification —
so no DRS value or risk-level string can reach it — and none of its
string fields contains the word "dropout", provided the analyzer's
conceptual gap description (which the view embeds verbatim when
misconceptions are reported) does not contain it. -/
theorem student_view_isolation (f : ComprehensiveFeatureSet)
    (c c' : DropoutClassification)
    (hg : ¬ "dropout".toList <:+:
      f.ai_reasoning.conceptual_gap_description.toList) :
    generate_student_feedback f c = generate_student_feedback f c' ∧
    ∀ s ∈ feedback_strings (generate_student_feedback f c),
      ¬ "dropout".toList <:+: s.toList := by
  have hstr : ∀ s ∈ student_strengths f,
      ¬ "dropout".toList <:+: s.toList := by
    intro s hsm
    simp only [student_strengths, List.mem_append] at hsm
    rcases hsm with (h | h) | h <;> split_ifs at h <;>
      simp only [List.mem_singleton, List.not_mem_nil] at h <;>
      subst h <;> decide
  have harea : ∀ g ∈ student_growth_areas f,
      (¬ "dropout".toList <:+: g.1.toList) ∧
      (¬ "dropout".toList <:+: g.2.1.toList) ∧
      (¬ "dropout".toList <:+: g.2.2.toList) := by
    intro g hgm
    simp only [student_growth_areas, List.mem_append] at hgm
    rcases hgm with ((h | h) | h) | h <;> split_ifs at h <;>
      simp only [List.mem_singleton, List.not_mem_nil] at h <;>
      subst h <;> dsimp only
    · exact ⟨by decide, dropout_not_infix_stalled_message f, by decide⟩
    · exact ⟨by decide, dropout_not_infix_misconception_message f hg, by decide⟩
    · exact ⟨by decide, by decide, by decide⟩
    · exact ⟨by decide, by decide, by decide⟩
  have henc : ¬ "dropout".toList <:+: (generate_encouragement f).toList := by
    simp only [generate_encouragement]
    generalize f.learning_progress.attempt_count % encouragement_messages.length
      = n
    rcases n with _ | _ | _ | _ | _ | _ | _ | n
    all_goals first
      | decide
      | exact (by decide :
          ¬ "dropout".toList <:+: ("" : String).toList)
  refine ⟨rfl, ?_⟩
  intro s hs
  dsimp only [feedback_strings, generate_student_feedback] at hs
  rcases List.mem_cons.mp hs with rfl | hs
  · decide
  rcases List.mem_append.mp hs with hs | hs
  · rcases List.mem_append.mp hs with hs | hs
    · rcases List.mem_append.mp hs with hs | hs
      · rcases List.mem_append.mp hs with hs | hs
        · rcases List.mem_append.mp hs with hs | hs
          · exact hstr s hs
          · obtain ⟨g, hgm, rfl⟩ := List.mem_map.mp hs
            exact (harea g hgm).1
        · obtain ⟨g, hgm, rfl⟩ := List.mem_map.mp hs
          exact (harea g hgm).2.1
      · obtain ⟨g, hgm, rfl⟩ := List.mem_map.mp hs
        exact (harea g hgm).2.2
    · obtain ⟨g, hgm, rfl⟩ := List.mem_map.mp hs
      exact (harea g hgm).2.1
  · rcases List.mem_cons.mp hs with rfl | hs
    · cases f.learning_progress.learning_state <;> decide
    rcases List.mem_cons.mp hs with rfl | hs
    · exact henc
    rcases List.mem_cons.mp hs with rfl | hs
    · simp only [generate_progress_summary]
      cases f.learning_progress.learning_state <;> decide
    · exact absurd hs (List.not_mem_nil s)

/-- C7 amended, witnessed on the healthy feature set (whose gap
description is free of the word "dropout") with two different
classifications. -/
theorem student_view_isolation_witness :
    (¬ "dropout".toList <:+:
      healthy_features.ai_reasoning.conceptual_gap_description.toList) ∧
    (generate_student_feedback healthy_features c7_classification =
      generate_student_feedback healthy_features healthy_classification ∧
    ∀ s ∈ feedback_strings
      (generate_student_feedback healthy_features c7_classification),
      ¬ "dropout".toList <:+: s.toList) :=
  ⟨by decide,
    student_view_isolation healthy_features c7_classification
      healthy_classification (by decide)⟩

/-! ## Determinism of repeated analysis (C9) -/

lemma score_lmi_component_concat (l : List ℚ) (a : ℚ)
    (f : ComprehensiveFeatureSet) :
    score_lmi_component (l ++ [a]) f = score_lmi_component [a] f := by
  simp [score_lmi_component]

lemma calculate_drs_concat (l : List ℚ) (a : ℚ) (f : ComprehensiveFeatureSet) :
    calculate_drs (l ++ [a]) f = calculate_drs [a] f := by
  simp only [calculate_drs, calculate_drs_score, score_lmi_component_concat]

lemma momentum_direction_replicate (k : ℕ) (L : ℚ) :
    momentum_direction_of (some (List.replicate k L)) = .STABLE := by
  match k with
  | 0 => rfl
  | 1 => rfl
  | k + 2 =>
      simp only [momentum_direction_of, List.length_replicate]
      rw [if_pos (by omega)]
      have hlt : last_two (List.replicate (k + 2) L) = (L, L) := by
        have : (List.replicate (k + 2) L).reverse = List.replicate (k + 2) L :=
          List.reverse_replicate (k + 2) L
        rw [last_two, this, List.replicate_succ, List.replicate_succ]
      rw [hlt]
      norm_num

lemma classify_fst_congr (st st' : ScoringEngineState)
    (f : ComprehensiveFeatureSet) (h h' : Option (List ℚ))
    (hd : momentum_direction_of h = momentum_direction_of h') :
    (classify st f h).1 = (classify st' f h').1 := by
  rw [classify.eq_def, classify.eq_def]
  dsimp only [calculate_lmi]
  rw [hd, calculate_drs_concat, calculate_drs_concat]
  split <;> rfl

lemma system_analyze_fst (events : List Ev) (s : SystemState) :
    (system_analyze events s).1 =
      (classify s.engine (extract_features_with_ai events none none)
        s.key_analyses).1 := by
  rw [system_analyze.eq_def]
  dsimp only
  split <;> (rename_i x heq; exact heq.symm)

lemma classify_ok_lmi_score (st : ScoringEngineState)
    (f : ComprehensiveFeatureSet) (h : Option (List ℚ))
    (c : DropoutClassification) (hc : (classify st f h).1 = .ok c) :
    c.lmi_score = calculate_lmi_score f := by
  rw [classify.eq_def] at hc
  dsimp only [calculate_lmi] at hc
  split at hc
  · simp at hc
  · injection hc with hc2
    rw [← hc2]

/-- The per-key state after `n` repeated `analyze` calls holds either no
analyses (the key never stored) or `k` copies of the same LMI score. -/
lemma system_state_shape (events : List Ev) (n : ℕ) :
    ((system_step events)^[n] {}).key_analyses = none ∨
    ∃ k, ((system_step events)^[n] {}).key_analyses =
      some (List.replicate k
        (calculate_lmi_score (extract_features_with_ai events none none))) := by
  induction n with
  | zero => exact Or.inl rfl
  | succ n ih =>
      rw [Function.iterate_succ_apply']
      set s := (system_step events)^[n] {} with hs
      simp only [system_step]
      rw [system_analyze.eq_def]
      dsimp only
      split
      · rename_i c heq
        right
        have hL : c.lmi_score =
            calculate_lmi_score (extract_features_with_ai events none none) :=
          classify_ok_lmi_score _ _ _ _ heq
        rcases ih with hnone | ⟨k, hk⟩
        · exact ⟨1, by rw [hnone, hL]; rfl⟩
        · refine ⟨k + 1, ?_⟩
          rw [hk, hL]
          simp [List.replicate_succ']
      · exact ih

/-- C9: with the event log and the mock analyzer output fixed, every
repeated `analyze` call returns the same result (classification or
error) as the first call, despite the growing engine and trend
histories. -/
theorem analyze_deterministic (events : List Ev) (n : ℕ) :
    analyze_result_at events n = analyze_result_at events 0 := by
  unfold analyze_result_at
  rw [system_analyze_fst, system_analyze_fst]
  apply classify_fst_congr
  have hd : ∀ m, momentum_direction_of
      ((system_step events)^[m] {}).key_analyses = .STABLE := by
    intro m
    rcases system_state_shape events m with hnone | ⟨k, hk⟩
    · rw [hnone]; rfl
    · rw [hk]; exact momentum_direction_replicate _ _
  rw [hd n, hd 0]

end Dropout
